import Mathlib

/-!
# CRIU support: `getNativeString` and `checkpointJVMImpl`

A shallow embedding of `runtime/criusupport/criusupport.c`.

The two functions call into the VM, the port library, the OS and the CRIU
library.  What those calls return in one run is collected in a record
(`StringCalls` for one `getNativeString` call, `Env` for one
`checkpointJVMImpl` call); the embedded functions are pure functions of the
arguments and of that record, and they produce the final values of the C
locals together with the sequence of external calls that were made.

`checkpointJVMImpl` is embedded with `LINUX` defined.  Its `goto` cleanup chain
is kept as it is written: each run of statements yields the label it jumps to
(`Step`), and `cleanup` enters the chain of labels at that label and falls
through to the end.
-/

namespace CRIUSupport

/-! ## Machine integers -/

/-- `IDATA` arithmetic: a signed 64 bit integer (two's complement wrap). -/
def wrapIDATA (x : Int) : Int :=
  (x + 9223372036854775808) % 18446744073709551616 - 9223372036854775808

/-- The cast `(jint)x`: a signed 32 bit integer. -/
def toJint (x : Int) : Int :=
  (x + 2147483648) % 4294967296 - 2147483648

/-! ## `getNativeString` -/

/-- `#define STRING_BUFFER_SIZE 256`. -/
def STRING_BUFFER_SIZE : Int := 256

/-- `#define J9_NATIVE_STRING_NO_ERROR 0`. -/
def J9_NATIVE_STRING_NO_ERROR : Int := 0

/-- `#define J9_NATIVE_STRING_OUT_OF_MEMORY (-1)`. -/
def J9_NATIVE_STRING_OUT_OF_MEMORY : Int := -1

/-- `#define J9_NATIVE_STRING_FAIL_TO_CONVERT (-2)`. -/
def J9_NATIVE_STRING_FAIL_TO_CONVERT : Int := -2

/-- The value of a `char *` local, up to what the code compares it with:
`NULL`, the array it was initialised from (`mutf8StringBuf` for `mutf8String`,
the caller's `*nativeString` for `localNativeString`), or a heap block. -/
inductive Ptr where
  | null
  | own
  | heap
  deriving DecidableEq, Repr

/-- Memory contents: one cell per byte, `none` for a byte that was never written. -/
abbrev Buffer := List (Option UInt8)

/-- Calls to the memory allocator made on behalf of the destination and of the
intermediate MUTF8 copy. -/
inductive MemEvent where
  /-- `j9mem_allocate_memory(byteAmount, ...)` for the destination, and what it returned. -/
  | allocate (byteAmount : Int) (result : Ptr)
  /-- `j9mem_free_memory(mutf8String)`. -/
  | freeMutf8 (p : Ptr)
  /-- `j9mem_free_memory(localNativeString)`. -/
  | freeNative (p : Ptr)
  deriving DecidableEq, Repr

/-- What the external calls of one `getNativeString` invocation return. -/
structure StringCalls where
  /-- `copyStringToUTF8WithMemAlloc`: `none` when it returns `NULL`; otherwise the
  MUTF8 bytes (`mutf8StringSize` is their number) and whether the returned
  pointer is a heap block (`true`) or `mutf8StringBuf` (`false`). -/
  copyStringToUTF8WithMemAlloc : Option (List UInt8 × Bool)
  /-- `omrstr_convert(J9STR_CODE_MUTF8, J9STR_CODE_PLATFORM_RAW, in, inSize, out, outBufferSize)`
  as a function of the input bytes and `outBufferSize`: the `int32_t` it returns
  and the bytes it stores at the start of `out`. -/
  omrstr_convert : List UInt8 → Int → Int × List UInt8
  /-- `j9mem_allocate_memory(byteAmount, OMRMEM_CATEGORY_VM)` returns non-`NULL`. -/
  j9mem_allocate_memory : Int → Bool

/-- The observable result of one `getNativeString` call. -/
structure NativeStringResult where
  /-- The return value. -/
  res : Int
  /-- The value of `*nativeString` on return: `Ptr.own` is the buffer the caller passed. -/
  nativeString : Ptr
  /-- The contents of the buffer `*nativeString` points to on return. -/
  contents : Buffer
  /-- The contents of the caller's buffer on return. -/
  callerBuf : Buffer
  /-- The allocator calls, in order. -/
  mem : List MemEvent

/-- Storing the bytes `w` at the start of `buf`. -/
def store (buf : Buffer) (w : List UInt8) : Buffer :=
  w.map some ++ buf.drop w.length

/-- The label `free:` of `getNativeString` (lines 186-199), entered with the
current values of `mutf8String`, `localNativeString`, `res`; `dest` is the
memory `localNativeString` points to and `callerBuf` the memory of the buffer
the caller passed. -/
def getNativeString.free (mutf8String localNativeString : Ptr) (res : Int)
    (dest callerBuf : Buffer) (mem : List MemEvent) : NativeStringResult :=
  let mem := if mutf8String ≠ Ptr.own then mem ++ [MemEvent.freeMutf8 mutf8String] else mem
  if localNativeString ≠ Ptr.own then
    if J9_NATIVE_STRING_NO_ERROR = res then
      { res := res, nativeString := localNativeString, contents := dest,
        callerBuf := callerBuf, mem := mem }
    else
      { res := res, nativeString := Ptr.own, contents := callerBuf,
        callerBuf := callerBuf, mem := mem ++ [MemEvent.freeNative localNativeString] }
  else
    { res := res, nativeString := Ptr.own, contents := callerBuf,
      callerBuf := callerBuf, mem := mem }

/-- The function `getNativeString` (lines 127-200).  `callerBuf` is the memory
`*nativeString` points to on entry and `nativeStringBufSize` the size passed
for it. -/
def getNativeString (ext : StringCalls) (callerBuf : Buffer) (nativeStringBufSize : Int) :
    NativeStringResult :=
  match ext.copyStringToUTF8WithMemAlloc with
  | none =>
    getNativeString.free Ptr.null Ptr.own J9_NATIVE_STRING_OUT_OF_MEMORY callerBuf callerBuf []
  | some (mutf8, onHeap) =>
    let mutf8String := if onHeap then Ptr.heap else Ptr.own
    /- get the required size -/
    let requiredConvertedStringSize := (ext.omrstr_convert mutf8 0).1
    if requiredConvertedStringSize < 0 then
      getNativeString.free mutf8String Ptr.own J9_NATIVE_STRING_FAIL_TO_CONVERT
        callerBuf callerBuf []
    else
      /- Add 1 for NUL terminator -/
      let requiredConvertedStringSize := wrapIDATA (requiredConvertedStringSize + 1)
      let needHeap : Bool := decide (requiredConvertedStringSize > nativeStringBufSize)
      if needHeap && !ext.j9mem_allocate_memory requiredConvertedStringSize then
        getNativeString.free mutf8String Ptr.null J9_NATIVE_STRING_OUT_OF_MEMORY
          [] callerBuf [MemEvent.allocate requiredConvertedStringSize Ptr.null]
      else
        let localNativeString := if needHeap then Ptr.heap else Ptr.own
        let mem :=
          if needHeap then [MemEvent.allocate requiredConvertedStringSize Ptr.heap] else []
        let dest : Buffer :=
          if needHeap then List.replicate requiredConvertedStringSize.toNat none else callerBuf
        let dest := dest.set (requiredConvertedStringSize - 1).toNat (some 0)
        /- convert the string -/
        let conv := ext.omrstr_convert mutf8 requiredConvertedStringSize
        let dest := store dest conv.2
        let callerBuf := if needHeap then callerBuf else dest
        if conv.1 < 0 then
          getNativeString.free mutf8String localNativeString J9_NATIVE_STRING_FAIL_TO_CONVERT
            dest callerBuf mem
        else
          getNativeString.free mutf8String localNativeString J9_NATIVE_STRING_NO_ERROR
            dest callerBuf mem

/-! ## `checkpointJVMImpl` -/

/-- The three exception classes cached in the `J9JavaVM` by `setupJNIFieldIDs`. -/
inductive ExceptionClass where
  | criuJVMCheckpointExceptionClass
  | criuSystemCheckpointExceptionClass
  | criuRestoreExceptionClass
  deriving DecidableEq, Repr

/-- The constructor method IDs cached next to the classes. -/
inductive ExceptionInit where
  | criuJVMCheckpointExceptionInit
  | criuSystemCheckpointExceptionInit
  | criuRestoreExceptionInit
  deriving DecidableEq, Repr

/-- The message keys passed to `j9nls_lookup_message`. -/
inductive NlsMsg where
  | J9NLS_JCL_CRIU_FAILED_TO_CONVERT_JAVA_STRING
  | J9NLS_JCL_CRIU_FAILED_TO_OPEN_DIR
  | J9NLS_JCL_CRIU_FAILED_TO_OPEN_WORK_DIR
  | J9NLS_JCL_CRIU_INIT_FAILED
  | J9NLS_JCL_CRIU_DUMP_FAILED
  | J9NLS_JCL_CRIU_FAILED_TO_CLOSE_WORK_DIR
  | J9NLS_JCL_CRIU_FAILED_TO_CLOSE_DIR
  deriving DecidableEq, Repr

/-- The string arguments of `checkpointJVMImpl`. -/
inductive PathArg where
  | imagesDir
  | logFile
  | workDir
  deriving DecidableEq, Repr

/-- The external calls `checkpointJVMImpl` makes, in the order it makes them.
Not recorded are the trace points and assertions, `j9nls_lookup_message` (its
key is kept in `nlsMsgFormat`) and the two `j9str_printf` calls that format the
message. -/
inductive Event where
  | internalEnterVMFromJNI
  /-- A call `getNativeString(currentThread, ..., &chars, STRING_BUFFER_SIZE)`. -/
  | getNativeString (arg : PathArg)
  | setNativeOutOfMemoryError
  /-- The call `open(directoryChars, O_DIRECTORY)`. -/
  | openDirectory
  /-- The call `open(workDirChars, O_DIRECTORY)`. -/
  | openWorkDir
  | criu_init_opts
  | criu_set_images_dir_fd (fd : Int)
  | criu_set_shell_job (b : Bool)
  | criu_set_log_level (level : Int)
  | criu_set_log_file
  | criu_set_leave_running (b : Bool)
  | criu_set_ext_unix_sk (b : Bool)
  | criu_set_file_locks (b : Bool)
  | criu_set_tcp_established (b : Bool)
  | criu_set_auto_dedup (b : Bool)
  | criu_set_track_mem (b : Bool)
  | criu_set_work_dir_fd (fd : Int)
  | acquireExclusiveVMAccess
  | jvmCheckpointHooks
  | criu_dump
  | jvmRestoreHooks
  | releaseExclusiveVMAccess
  /-- The call `close(workDirFD)` of line 359, with the value of `workDirFD`. -/
  | closeWorkDirFD (fd : Int)
  /-- The call `close(dirFD)` of line 369, with the value of `dirFD`. -/
  | closeDirFD (fd : Int)
  /-- The call `j9mem_free_memory(workDirChars)`. -/
  | freeWorkDirChars
  /-- The call `j9mem_free_memory(logFileChars)`. -/
  | freeLogFileChars
  /-- The call `j9mem_free_memory(directoryChars)`. -/
  | freeDirectoryChars
  | internalExitVMToJNI
  /-- The call `j9mem_allocate_memory(msgCharLength, J9MEM_CATEGORY_VM)`. -/
  | allocateExceptionMsg
  | newStringUTF
  | newObject (cls : ExceptionClass) (init : ExceptionInit) (code : Int)
  | throw (cls : ExceptionClass) (code : Int)
  /-- The call `j9mem_free_memory(exceptionMsg)`. -/
  | freeExceptionMsg
  deriving DecidableEq, Repr

/-- The arguments of `checkpointJVMImpl`.  A `jboolean` is given by whether it
differs from `JNI_FALSE`, an optional `jstring` by whether it differs from
`NULL`; `imagesDir` is asserted non-`NULL` and its characters are seen only by
`getNativeString`. -/
structure Args where
  leaveRunning : Bool
  shellJob : Bool
  extUnixSupport : Bool
  logLevel : Int
  logFile : Bool
  fileLocks : Bool
  workDir : Bool
  tcpEstablished : Bool
  autoDedup : Bool
  trackMemory : Bool

/-- What the external calls of one `checkpointJVMImpl` invocation return. -/
structure Env where
  /-- `vmFuncs->isCheckpointAllowed(currentThread)`. -/
  isCheckpointAllowed : Bool
  /-- The external calls inside `getNativeString` for `imagesDir`. -/
  imagesDirCalls : StringCalls
  /-- The external calls inside `getNativeString` for `logFile`. -/
  logFileCalls : StringCalls
  /-- The external calls inside `getNativeString` for `workDir`. -/
  workDirCalls : StringCalls
  /-- `open(directoryChars, O_DIRECTORY)`. -/
  openDirectory : Int
  /-- The value of `errno` after `open(directoryChars, O_DIRECTORY)`. -/
  openDirectoryErrno : Int
  /-- `open(workDirChars, O_DIRECTORY)`. -/
  openWorkDir : Int
  /-- The value of `errno` after `open(workDirChars, O_DIRECTORY)`. -/
  openWorkDirErrno : Int
  /-- `criu_init_opts()`. -/
  criu_init_opts : Int
  /-- `vmFuncs->jvmCheckpointHooks(currentThread)` differs from `FALSE`. -/
  jvmCheckpointHooks : Bool
  /-- `criu_dump()`. -/
  criu_dump : Int
  /-- `vmFuncs->jvmRestoreHooks(currentThread)` differs from `FALSE`. -/
  jvmRestoreHooks : Bool
  /-- `close(workDirFD)`. -/
  closeWorkDirFD : Int
  /-- The value of `errno` after `close(workDirFD)`. -/
  closeWorkDirFDErrno : Int
  /-- `close(dirFD)`. -/
  closeDirFD : Int
  /-- The value of `errno` after `close(dirFD)`. -/
  closeDirFDErrno : Int
  /-- `j9mem_allocate_memory(msgCharLength, J9MEM_CATEGORY_VM)` returns non-`NULL`. -/
  allocateExceptionMsg : Bool
  /-- `(*env)->ExceptionCheck(env)` at line 411 differs from `JNI_FALSE`. -/
  exceptionCheck : Bool
  /-- `(*env)->NewObject(...)` at line 412 returns non-`NULL`. -/
  newObject : Bool

/-- The locals of `checkpointJVMImpl` that the control flow reads.  The
initial values are those of lines 221-241. -/
structure Locals where
  currentExceptionClass : Option ExceptionClass := none
  nlsMsgFormat : Option NlsMsg := none
  systemReturnCode : Int := 0
  dirFD : Int := 0
  workDirFD : Int := 0
  /-- `Ptr.own` while `directoryChars == directoryBuf`. -/
  directoryChars : Ptr := Ptr.own
  /-- `Ptr.own` while `logFileChars == logFileBuf`. -/
  logFileChars : Ptr := Ptr.own
  /-- `Ptr.own` while `workDirChars == workDirBuf`. -/
  workDirChars : Ptr := Ptr.own
  isAfterCheckpoint : Bool := false

/-- The cleanup labels of `checkpointJVMImpl`, in source order. -/
inductive Label where
  | releaseExclusive
  | closeWorkDirFD
  | closeDirFD
  | freeWorkDir
  | freeLog
  | freeDir
  deriving DecidableEq, Repr

/-- The effect of a run of consecutive statements: the target of the `goto`
that ended it (`none` when control falls through to the next statement), the
locals at that point, and the external calls made, in order. -/
structure Step where
  target : Option Label
  locals : Locals
  calls : List Event

/-- Sequencing: the statements `next` run after `s` unless `s` ended in a `goto`. -/
def Step.andThen (s : Step) (next : Locals → Step) : Step :=
  match s.target with
  | some _ => s
  | none =>
    { target := (next s.locals).target,
      locals := (next s.locals).locals,
      calls := s.calls ++ (next s.locals).calls }

/-- A stack buffer of `STRING_BUFFER_SIZE` chars, not yet written. -/
def stackBuffer : Buffer := List.replicate 256 none

/-- Lines 243-258: entering the VM and converting `imagesDir`. -/
def resolveDirectory (env : Env) (l : Locals) : Step :=
  let r := getNativeString env.imagesDirCalls stackBuffer STRING_BUFFER_SIZE
  let l : Locals := { l with systemReturnCode := r.res, directoryChars := r.nativeString }
  let calls := [Event.internalEnterVMFromJNI, Event.getNativeString PathArg.imagesDir]
  if l.systemReturnCode = J9_NATIVE_STRING_NO_ERROR then
    { target := none, locals := l, calls := calls }
  else if l.systemReturnCode = J9_NATIVE_STRING_OUT_OF_MEMORY then
    { target := some Label.freeDir, locals := l,
      calls := calls ++ [Event.setNativeOutOfMemoryError] }
  else if l.systemReturnCode = J9_NATIVE_STRING_FAIL_TO_CONVERT then
    { target := some Label.freeDir,
      locals := { l with
        currentExceptionClass := some ExceptionClass.criuJVMCheckpointExceptionClass,
        nlsMsgFormat := some NlsMsg.J9NLS_JCL_CRIU_FAILED_TO_CONVERT_JAVA_STRING },
      calls := calls }
  else { target := none, locals := l, calls := calls }

/-- Lines 260-274: converting `logFile` when it is not `NULL`. -/
def resolveLogFile (args : Args) (env : Env) (l : Locals) : Step :=
  if args.logFile then
    let r := getNativeString env.logFileCalls stackBuffer STRING_BUFFER_SIZE
    let l : Locals := { l with systemReturnCode := r.res, logFileChars := r.nativeString }
    let calls := [Event.getNativeString PathArg.logFile]
    if l.systemReturnCode = J9_NATIVE_STRING_NO_ERROR then
      { target := none, locals := l, calls := calls }
    else if l.systemReturnCode = J9_NATIVE_STRING_OUT_OF_MEMORY then
      { target := some Label.freeLog, locals := l,
        calls := calls ++ [Event.setNativeOutOfMemoryError] }
    else if l.systemReturnCode = J9_NATIVE_STRING_FAIL_TO_CONVERT then
      { target := some Label.freeLog,
        locals := { l with
          currentExceptionClass := some ExceptionClass.criuJVMCheckpointExceptionClass,
          nlsMsgFormat := some NlsMsg.J9NLS_JCL_CRIU_FAILED_TO_CONVERT_JAVA_STRING },
        calls := calls }
    else { target := none, locals := l, calls := calls }
  else { target := none, locals := l, calls := [] }

/-- Lines 276-290: converting `workDir` when it is not `NULL`. -/
def resolveWorkDir (args : Args) (env : Env) (l : Locals) : Step :=
  if args.workDir then
    let r := getNativeString env.workDirCalls stackBuffer STRING_BUFFER_SIZE
    let l : Locals := { l with systemReturnCode := r.res, workDirChars := r.nativeString }
    let calls := [Event.getNativeString PathArg.workDir]
    if l.systemReturnCode = J9_NATIVE_STRING_NO_ERROR then
      { target := none, locals := l, calls := calls }
    else if l.systemReturnCode = J9_NATIVE_STRING_OUT_OF_MEMORY then
      { target := some Label.freeWorkDir, locals := l,
        calls := calls ++ [Event.setNativeOutOfMemoryError] }
    else if l.systemReturnCode = J9_NATIVE_STRING_FAIL_TO_CONVERT then
      { target := some Label.freeWorkDir,
        locals := { l with
          currentExceptionClass := some ExceptionClass.criuJVMCheckpointExceptionClass,
          nlsMsgFormat := some NlsMsg.J9NLS_JCL_CRIU_FAILED_TO_CONVERT_JAVA_STRING },
        calls := calls }
    else { target := none, locals := l, calls := calls }
  else { target := none, locals := l, calls := [] }

/-- Lines 292-298: opening the image directory. -/
def openDirectory (env : Env) (l : Locals) : Step :=
  let l : Locals := { l with dirFD := env.openDirectory }
  if l.dirFD < 0 then
    { target := some Label.freeWorkDir,
      locals := { l with
        systemReturnCode := env.openDirectoryErrno,
        currentExceptionClass := some ExceptionClass.criuJVMCheckpointExceptionClass,
        nlsMsgFormat := some NlsMsg.J9NLS_JCL_CRIU_FAILED_TO_OPEN_DIR },
      calls := [Event.openDirectory] }
  else { target := none, locals := l, calls := [Event.openDirectory] }

/-- Lines 300-308: opening the work directory when `workDir` is not `NULL`. -/
def openWorkDir (args : Args) (env : Env) (l : Locals) : Step :=
  if args.workDir then
    let l : Locals := { l with workDirFD := env.openWorkDir }
    if l.workDirFD < 0 then
      { target := some Label.closeDirFD,
        locals := { l with
          systemReturnCode := env.openWorkDirErrno,
          currentExceptionClass := some ExceptionClass.criuJVMCheckpointExceptionClass,
          nlsMsgFormat := some NlsMsg.J9NLS_JCL_CRIU_FAILED_TO_OPEN_WORK_DIR },
        calls := [Event.openWorkDir] }
    else { target := none, locals := l, calls := [Event.openWorkDir] }
  else { target := none, locals := l, calls := [] }

/-- Lines 310-334: initialising the CRIU options and setting them. -/
def configureCriu (args : Args) (env : Env) (l : Locals) : Step :=
  let l : Locals := { l with systemReturnCode := env.criu_init_opts }
  if 0 ≠ l.systemReturnCode then
    { target := some Label.closeWorkDirFD,
      locals := { l with
        currentExceptionClass := some ExceptionClass.criuSystemCheckpointExceptionClass,
        nlsMsgFormat := some NlsMsg.J9NLS_JCL_CRIU_INIT_FAILED },
      calls := [Event.criu_init_opts] }
  else
    { target := none, locals := l,
      calls :=
        [Event.criu_init_opts,
          Event.criu_set_images_dir_fd l.dirFD,
          Event.criu_set_shell_job args.shellJob]
        ++ (if args.logLevel > 0 then [Event.criu_set_log_level args.logLevel] else [])
        ++ (if args.logFile then [Event.criu_set_log_file] else [])
        ++ [Event.criu_set_leave_running args.leaveRunning,
          Event.criu_set_ext_unix_sk args.extUnixSupport,
          Event.criu_set_file_locks args.fileLocks,
          Event.criu_set_tcp_established args.tcpEstablished,
          Event.criu_set_auto_dedup args.autoDedup,
          Event.criu_set_track_mem args.trackMemory]
        ++ (if args.workDir then [Event.criu_set_work_dir_fd l.workDirFD] else []) }

/-- Lines 336-354: exclusive VM access, the hooks and the dump. -/
def checkpoint (env : Env) (l : Locals) : Step :=
  if env.jvmCheckpointHooks = false then
    { target := some Label.releaseExclusive, locals := l,
      calls := [Event.acquireExclusiveVMAccess, Event.jvmCheckpointHooks] }
  else
    let l : Locals := { l with systemReturnCode := env.criu_dump }
    if l.systemReturnCode < 0 then
      { target := some Label.releaseExclusive,
        locals := { l with
          currentExceptionClass := some ExceptionClass.criuSystemCheckpointExceptionClass,
          nlsMsgFormat := some NlsMsg.J9NLS_JCL_CRIU_DUMP_FAILED },
        calls := [Event.acquireExclusiveVMAccess, Event.jvmCheckpointHooks, Event.criu_dump] }
    else
      /- We can only end up here if the CRIU restore was successful -/
      let l : Locals := { l with isAfterCheckpoint := true }
      if env.jvmRestoreHooks = false then
        { target := some Label.releaseExclusive, locals := l,
          calls := [Event.acquireExclusiveVMAccess, Event.jvmCheckpointHooks, Event.criu_dump,
            Event.jvmRestoreHooks] }
      else
        { target := none, locals := l,
          calls := [Event.acquireExclusiveVMAccess, Event.jvmCheckpointHooks, Event.criu_dump,
            Event.jvmRestoreHooks] }

/-- Lines 243-334: everything before exclusive VM access is requested. -/
def setup (args : Args) (env : Env) : Step :=
  (((((resolveDirectory env {}).andThen
    (resolveLogFile args env)).andThen
    (resolveWorkDir args env)).andThen
    (openDirectory env)).andThen
    (openWorkDir args env)).andThen
    (configureCriu args env)

/-- Lines 243-354: everything before the cleanup labels. -/
def body (args : Args) (env : Env) : Step :=
  (setup args env).andThen (checkpoint env)

/-- The label at which control enters the cleanup code: the target of the
`goto` taken, or `releaseExclusive`, which follows line 354. -/
def entryLabel (s : Step) : Label :=
  s.target.getD Label.releaseExclusive

/-- The class a failing `close` is reported with (lines 361-365 and 371-375). -/
def closeFailureClass (isAfterCheckpoint : Bool) : ExceptionClass :=
  if isAfterCheckpoint then ExceptionClass.criuRestoreExceptionClass
  else ExceptionClass.criuSystemCheckpointExceptionClass

/-- From `freeDir:` to line 391. -/
def atFreeDir (l : Locals) : Locals × List Event :=
  (l, (if l.directoryChars ≠ Ptr.own then [Event.freeDirectoryChars] else [])
    ++ [Event.internalExitVMToJNI])

/-- From `freeLog:` on. -/
def atFreeLog (l : Locals) : Locals × List Event :=
  ((atFreeDir l).1, (if l.logFileChars ≠ Ptr.own then [Event.freeLogFileChars] else [])
    ++ (atFreeDir l).2)

/-- From `freeWorkDir:` on. -/
def atFreeWorkDir (l : Locals) : Locals × List Event :=
  ((atFreeLog l).1, (if l.workDirChars ≠ Ptr.own then [Event.freeWorkDirChars] else [])
    ++ (atFreeLog l).2)

/-- The statement at `closeDirFD:` (lines 369-377), after `close(dirFD)` returned. -/
def afterCloseDirFD (env : Env) (l : Locals) : Locals :=
  if 0 ≠ env.closeDirFD ∧ l.currentExceptionClass = none then
    { l with
      systemReturnCode := env.closeDirFDErrno,
      currentExceptionClass := some (closeFailureClass l.isAfterCheckpoint),
      nlsMsgFormat := some NlsMsg.J9NLS_JCL_CRIU_FAILED_TO_CLOSE_DIR }
  else l

/-- From `closeDirFD:` on. -/
def atCloseDirFD (env : Env) (l : Locals) : Locals × List Event :=
  ((atFreeWorkDir (afterCloseDirFD env l)).1,
    Event.closeDirFD l.dirFD :: (atFreeWorkDir (afterCloseDirFD env l)).2)

/-- The statement at `closeWorkDirFD:` (lines 359-367), after `close(workDirFD)` returned. -/
def afterCloseWorkDirFD (env : Env) (l : Locals) : Locals :=
  if 0 ≠ env.closeWorkDirFD ∧ l.currentExceptionClass = none then
    { l with
      systemReturnCode := env.closeWorkDirFDErrno,
      currentExceptionClass := some (closeFailureClass l.isAfterCheckpoint),
      nlsMsgFormat := some NlsMsg.J9NLS_JCL_CRIU_FAILED_TO_CLOSE_WORK_DIR }
  else l

/-- From `closeWorkDirFD:` on. -/
def atCloseWorkDirFD (env : Env) (l : Locals) : Locals × List Event :=
  ((atCloseDirFD env (afterCloseWorkDirFD env l)).1,
    Event.closeWorkDirFD l.workDirFD :: (atCloseDirFD env (afterCloseWorkDirFD env l)).2)

/-- From `releaseExclusive:` on. -/
def atReleaseExclusive (env : Env) (l : Locals) : Locals × List Event :=
  ((atCloseWorkDirFD env l).1, Event.releaseExclusiveVMAccess :: (atCloseWorkDirFD env l).2)

/-- Lines 356-391, entered at the given label. -/
def cleanup (env : Env) : Label → Locals → Locals × List Event
  | Label.releaseExclusive, l => atReleaseExclusive env l
  | Label.closeWorkDirFD, l => atCloseWorkDirFD env l
  | Label.closeDirFD, l => atCloseDirFD env l
  | Label.freeWorkDir, l => atFreeWorkDir l
  | Label.freeLog, l => atFreeLog l
  | Label.freeDir, l => atFreeDir l

/-- The constructor chosen at lines 401-408. -/
def selectInit (currentExceptionClass : ExceptionClass) : ExceptionInit :=
  if ExceptionClass.criuJVMCheckpointExceptionClass = currentExceptionClass then
    ExceptionInit.criuJVMCheckpointExceptionInit
  else if ExceptionClass.criuSystemCheckpointExceptionClass = currentExceptionClass then
    ExceptionInit.criuSystemCheckpointExceptionInit
  else
    ExceptionInit.criuRestoreExceptionInit

/-- Lines 395-421: building and throwing the exception; the calls made. -/
def throwException (env : Env) (l : Locals) : List Event :=
  match l.currentExceptionClass with
  | none => []
  | some currentExceptionClass =>
    [Event.allocateExceptionMsg, Event.newStringUTF]
    ++ (if env.exceptionCheck = false then
          [Event.newObject currentExceptionClass (selectInit currentExceptionClass)
            (toJint l.systemReturnCode)]
          ++ (if env.newObject then
                [Event.throw currentExceptionClass (toJint l.systemReturnCode)]
              else [])
        else [])
    ++ (if env.allocateExceptionMsg then [Event.freeExceptionMsg] else [])

/-- One run of `checkpointJVMImpl`: the locals when it returns and the external
calls it made, in order. -/
structure Run where
  locals : Locals
  trace : List Event

/-- The function `Java_org_eclipse_openj9_criu_CRIUSupport_checkpointJVMImpl`
(lines 202-422, with `LINUX` defined). -/
def checkpointJVMImpl (args : Args) (env : Env) : Run :=
  if env.isCheckpointAllowed then
    let s := body args env
    let c := cleanup env (entryLabel s) s.locals
    { locals := c.1, trace := s.calls ++ c.2 ++ throwException env c.1 }
  else
    { locals := {}, trace := throwException env {} }

/-- The failure a run recorded: the final `currentExceptionClass` with the
final `systemReturnCode`, `none` when no class was set. -/
def outcome (r : Run) : Option (ExceptionClass × Int) :=
  r.locals.currentExceptionClass.map fun c => (c, r.locals.systemReturnCode)

/-- The exception a call throws, if it is `Throw`. -/
def Event.thrown : Event → Option (ExceptionClass × Int)
  | Event.throw cls code => some (cls, code)
  | _ => none

/-- The exceptions the function itself threw, with the `jint` they carry. -/
def thrown (r : Run) : List (ExceptionClass × Int) :=
  r.trace.filterMap Event.thrown

/-! ## Vocabulary of the properties -/

/-- The teardown actions of `checkpointJVMImpl`. -/
inductive TeardownAction where
  | releaseExclusive
  | closeWorkDir
  | closeImageDir
  | freeWorkDirBuffer
  | freeLogFileBuffer
  | freeImageDirBuffer
  deriving DecidableEq, Repr

/-- The teardown action a call performs, if it is one. -/
def Event.teardown : Event → Option TeardownAction
  | Event.releaseExclusiveVMAccess => some TeardownAction.releaseExclusive
  | Event.closeWorkDirFD _ => some TeardownAction.closeWorkDir
  | Event.closeDirFD _ => some TeardownAction.closeImageDir
  | Event.freeWorkDirChars => some TeardownAction.freeWorkDirBuffer
  | Event.freeLogFileChars => some TeardownAction.freeLogFileBuffer
  | Event.freeDirectoryChars => some TeardownAction.freeImageDirBuffer
  | _ => none

/-- The order in which teardown actions are to appear. -/
def teardownOrder : List TeardownAction :=
  [TeardownAction.releaseExclusive, TeardownAction.closeWorkDir, TeardownAction.closeImageDir,
    TeardownAction.freeWorkDirBuffer, TeardownAction.freeLogFileBuffer,
    TeardownAction.freeImageDirBuffer]

/-- Calls into the CRIU library. -/
def Event.isCriu : Event → Bool
  | Event.criu_init_opts => true
  | Event.criu_set_images_dir_fd _ => true
  | Event.criu_set_shell_job _ => true
  | Event.criu_set_log_level _ => true
  | Event.criu_set_log_file => true
  | Event.criu_set_leave_running _ => true
  | Event.criu_set_ext_unix_sk _ => true
  | Event.criu_set_file_locks _ => true
  | Event.criu_set_tcp_established _ => true
  | Event.criu_set_auto_dedup _ => true
  | Event.criu_set_track_mem _ => true
  | Event.criu_set_work_dir_fd _ => true
  | Event.criu_dump => true
  | _ => false

/-- The two hooks and the dump: the calls that need exclusive VM access. -/
def Event.isGuarded : Event → Bool
  | Event.jvmCheckpointHooks => true
  | Event.criu_dump => true
  | Event.jvmRestoreHooks => true
  | _ => false

/-- Acquisition, engine and hook steps: path conversions, opens, CRIU calls,
the request for exclusive VM access and the hooks. -/
def Event.isForwardStep : Event → Bool
  | Event.getNativeString _ => true
  | Event.openDirectory => true
  | Event.openWorkDir => true
  | Event.acquireExclusiveVMAccess => true
  | Event.jvmCheckpointHooks => true
  | Event.jvmRestoreHooks => true
  | e => e.isCriu

/-- The calls of lines 243-334. -/
def Event.isSetup : Event → Bool
  | Event.internalEnterVMFromJNI => true
  | Event.getNativeString _ => true
  | Event.setNativeOutOfMemoryError => true
  | Event.openDirectory => true
  | Event.openWorkDir => true
  | Event.criu_dump => false
  | e => e.isCriu

/-- The calls of lines 243-290. -/
def Event.isConversion : Event → Bool
  | Event.internalEnterVMFromJNI => true
  | Event.getNativeString _ => true
  | Event.setNativeOutOfMemoryError => true
  | _ => false

/-- The calls of lines 378-391: releasing the path buffers and leaving the VM. -/
def Event.isFree : Event → Bool
  | Event.freeWorkDirChars => true
  | Event.freeLogFileChars => true
  | Event.freeDirectoryChars => true
  | Event.internalExitVMToJNI => true
  | _ => false

/-- The calls of lines 395-421. -/
def Event.isRaise : Event → Bool
  | Event.allocateExceptionMsg => true
  | Event.newStringUTF => true
  | Event.newObject _ _ _ => true
  | Event.throw _ _ => true
  | Event.freeExceptionMsg => true
  | _ => false

/-- A `close` of the work-directory slot. -/
def Event.isCloseWorkDir : Event → Bool
  | Event.closeWorkDirFD _ => true
  | _ => false

/-- A `close` of the image-directory descriptor. -/
def Event.isCloseDir : Event → Bool
  | Event.closeDirFD _ => true
  | _ => false

/-- The descriptor a call closes, if the call is a `close` (line 359 or 369). -/
def Event.closedFD : Event → Option Int
  | Event.closeWorkDirFD fd => some fd
  | Event.closeDirFD fd => some fd
  | _ => none

/-- The descriptors closed in a trace: one entry per `close` call, in order. -/
def closedFDs (t : List Event) : List Int :=
  t.filterMap Event.closedFD

/-- Every step before the request for exclusive VM access succeeds: checkpointing
is allowed, each path conversion that is made returns
`J9_NATIVE_STRING_NO_ERROR`, each `open` that is made returns a descriptor, and
`criu_init_opts` returns 0. -/
def setupSucceeds (args : Args) (env : Env) : Prop :=
  env.isCheckpointAllowed = true ∧
  (getNativeString env.imagesDirCalls stackBuffer STRING_BUFFER_SIZE).res
    = J9_NATIVE_STRING_NO_ERROR ∧
  (args.logFile = true →
    (getNativeString env.logFileCalls stackBuffer STRING_BUFFER_SIZE).res
      = J9_NATIVE_STRING_NO_ERROR) ∧
  (args.workDir = true →
    (getNativeString env.workDirCalls stackBuffer STRING_BUFFER_SIZE).res
      = J9_NATIVE_STRING_NO_ERROR) ∧
  0 ≤ env.openDirectory ∧
  (args.workDir = true → 0 ≤ env.openWorkDir) ∧
  env.criu_init_opts = 0

instance (args : Args) (env : Env) : Decidable (setupSucceeds args env) :=
  inferInstanceAs (Decidable (_ ∧ _ ∧ (_ → _) ∧ (_ → _) ∧ _ ∧ (_ → _) ∧ _))

/-- A step that made only calls of lines 243-334, left `isAfterCheckpoint`
clear and did not jump to `releaseExclusive`. -/
def Step.IsSetup (s : Step) : Prop :=
  (∀ e ∈ s.calls, e.isSetup = true) ∧ s.locals.isAfterCheckpoint = false ∧
  s.target ≠ some Label.releaseExclusive

/-- An allocation for the destination. -/
def MemEvent.isAllocate : MemEvent → Bool
  | MemEvent.allocate _ _ => true
  | _ => false

/-! ## Sample runs -/

/-- The external calls of a `getNativeString` call for the path `/t`: the MUTF8
copy fits `mutf8StringBuf`, the conversion is the identity, allocation succeeds. -/
def sampleStringCalls : StringCalls :=
  { copyStringToUTF8WithMemAlloc := some ([47, 116], false),
    omrstr_convert := fun mutf8 outBufferSize =>
      if outBufferSize = 0 then (mutf8.length, []) else (mutf8.length, mutf8),
    j9mem_allocate_memory := fun _ => true }

/-- The same calls when `j9mem_allocate_memory` returns `NULL`. -/
def sampleStringCallsNoMemory : StringCalls :=
  { sampleStringCalls with j9mem_allocate_memory := fun _ => false }

/-- Arguments without log file and without work directory. -/
def sampleArgs : Args :=
  { leaveRunning := false, shellJob := false, extUnixSupport := false, logLevel := 2,
    logFile := false, fileLocks := false, workDir := false, tcpEstablished := false,
    autoDedup := false, trackMemory := false }

/-- Arguments with a log file and a work directory. -/
def sampleArgsWorkDir : Args :=
  { sampleArgs with logFile := true, workDir := true }

/-- External calls that all succeed: the image directory opens as descriptor 3,
the work directory as descriptor 4, both hooks report success, `criu_dump`
returns 0 and both closes return 0. -/
def sampleEnv : Env :=
  { isCheckpointAllowed := true,
    imagesDirCalls := sampleStringCalls,
    logFileCalls := sampleStringCalls,
    workDirCalls := sampleStringCalls,
    openDirectory := 3, openDirectoryErrno := 0,
    openWorkDir := 4, openWorkDirErrno := 0,
    criu_init_opts := 0,
    jvmCheckpointHooks := true,
    criu_dump := 0,
    jvmRestoreHooks := true,
    closeWorkDirFD := 0, closeWorkDirFDErrno := 0,
    closeDirFD := 0, closeDirFDErrno := 0,
    allocateExceptionMsg := true, exceptionCheck := false, newObject := true }

/-! ## Sequencing and the setup code -/

theorem andThen_of_target_none {s : Step} {f : Locals → Step} (h : s.target = none) :
    s.andThen f = ⟨(f s.locals).target, (f s.locals).locals, s.calls ++ (f s.locals).calls⟩ := by
  simp [Step.andThen, h]

theorem andThen_of_target_some {s : Step} {f : Locals → Step} {t : Label}
    (h : s.target = some t) : s.andThen f = s := by
  simp [Step.andThen, h]

theorem Step.IsSetup.andThen {s : Step} {f : Locals → Step} (hs : s.IsSetup)
    (hf : ∀ l, l.isAfterCheckpoint = false → (f l).IsSetup) : (s.andThen f).IsSetup := by
  cases ht : s.target with
  | some t => rw [andThen_of_target_some ht]; exact hs
  | none =>
    rw [andThen_of_target_none ht]
    obtain ⟨h1, h2, _⟩ := hs
    obtain ⟨g1, g2, g3⟩ := hf s.locals h2
    refine ⟨?_, g2, g3⟩
    intro e he
    rcases List.mem_append.mp he with h | h
    · exact h1 e h
    · exact g1 e h

theorem resolveDirectory_isSetup (env : Env) (l : Locals) (h : l.isAfterCheckpoint = false) :
    (resolveDirectory env l).IsSetup := by
  unfold resolveDirectory Step.IsSetup
  simp only
  split_ifs <;> simp [h, Event.isSetup]

theorem resolveLogFile_isSetup (args : Args) (env : Env) (l : Locals)
    (h : l.isAfterCheckpoint = false) : (resolveLogFile args env l).IsSetup := by
  unfold resolveLogFile Step.IsSetup
  simp only
  split_ifs <;> simp [h, Event.isSetup]

theorem resolveWorkDir_isSetup (args : Args) (env : Env) (l : Locals)
    (h : l.isAfterCheckpoint = false) : (resolveWorkDir args env l).IsSetup := by
  unfold resolveWorkDir Step.IsSetup
  simp only
  split_ifs <;> simp [h, Event.isSetup]

theorem openDirectory_isSetup (env : Env) (l : Locals)
    (h : l.isAfterCheckpoint = false) : (openDirectory env l).IsSetup := by
  unfold openDirectory Step.IsSetup
  simp only
  split_ifs <;> simp [h, Event.isSetup]

theorem openWorkDir_isSetup (args : Args) (env : Env) (l : Locals)
    (h : l.isAfterCheckpoint = false) : (openWorkDir args env l).IsSetup := by
  unfold openWorkDir Step.IsSetup
  simp only
  split_ifs <;> simp [h, Event.isSetup]

theorem configureCriu_isSetup (args : Args) (env : Env) (l : Locals)
    (h : l.isAfterCheckpoint = false) : (configureCriu args env l).IsSetup := by
  unfold configureCriu Step.IsSetup
  simp only
  split_ifs <;> simp [h, Event.isSetup, Event.isCriu]

theorem setup_isSetup (args : Args) (env : Env) : (setup args env).IsSetup := by
  unfold setup
  refine Step.IsSetup.andThen (Step.IsSetup.andThen (Step.IsSetup.andThen (Step.IsSetup.andThen
    (Step.IsSetup.andThen (resolveDirectory_isSetup env _ rfl) ?_) ?_) ?_) ?_) ?_
  · exact resolveLogFile_isSetup args env
  · exact resolveWorkDir_isSetup args env
  · exact openDirectory_isSetup env
  · exact openWorkDir_isSetup args env
  · exact configureCriu_isSetup args env


theorem andThen_none_elim {s : Step} {f : Locals → Step} (h : (s.andThen f).target = none) :
    s.target = none ∧ (f s.locals).target = none ∧
    (s.andThen f).locals = (f s.locals).locals ∧
    (s.andThen f).calls = s.calls ++ (f s.locals).calls := by
  cases hs : s.target with
  | none => rw [andThen_of_target_none hs] at h ⊢; exact ⟨rfl, h, rfl, rfl⟩
  | some t => rw [andThen_of_target_some hs] at h; rw [hs] at h; cases h

theorem configureCriu_target_none (args : Args) (env : Env) (l : Locals)
    (h : (configureCriu args env l).target = none) :
    env.criu_init_opts = 0 ∧ Event.criu_init_opts ∈ (configureCriu args env l).calls := by
  by_cases hc : env.criu_init_opts = 0
  · exact ⟨hc, by simp [configureCriu, hc]⟩
  · have hc2 : ¬ (0 = env.criu_init_opts) := fun h0 => hc h0.symm
    simp [configureCriu, hc2] at h

theorem setup_target_none (args : Args) (env : Env) (h : (setup args env).target = none) :
    env.criu_init_opts = 0 ∧ Event.criu_init_opts ∈ (setup args env).calls := by
  unfold setup at h ⊢
  obtain ⟨_, g, _, c⟩ := andThen_none_elim h
  obtain ⟨h1, h2⟩ := configureCriu_target_none _ _ _ g
  exact ⟨h1, by rw [c]; exact List.mem_append_right _ h2⟩

theorem setup_of_succeeds (args : Args) (env : Env) (h : setupSucceeds args env) :
    (setup args env).target = none ∧
    (setup args env).locals.currentExceptionClass = none ∧
    (setup args env).locals.dirFD = env.openDirectory ∧
    (setup args env).locals.workDirFD = (if args.workDir then env.openWorkDir else 0) := by
  obtain ⟨h1, h2, h3, h4, h5, h6, h7⟩ := h
  cases hl : args.logFile <;> cases hw : args.workDir <;>
    simp only [hl, hw, true_implies] at h3 h4 h6 <;>
    simp [setup, Step.andThen, resolveDirectory, resolveLogFile, resolveWorkDir, openDirectory,
      openWorkDir, configureCriu, h2, h3, h4, h5, h6, h7, hl, hw, not_lt.mpr h5, not_lt.mpr]

theorem not_mem_of_isSetup {t : List Event} (h : ∀ e ∈ t, e.isSetup = true) {e : Event}
    (he : e.isSetup = false) : e ∉ t := by
  intro hm
  rw [h e hm] at he
  cases he

/-! ### The cleanup code -/

@[simp] theorem afterCloseWorkDirFD_dirFD (env : Env) (l : Locals) :
    (afterCloseWorkDirFD env l).dirFD = l.dirFD := by
  unfold afterCloseWorkDirFD; split_ifs <;> rfl

@[simp] theorem afterCloseWorkDirFD_isAfterCheckpoint (env : Env) (l : Locals) :
    (afterCloseWorkDirFD env l).isAfterCheckpoint = l.isAfterCheckpoint := by
  unfold afterCloseWorkDirFD; split_ifs <;> rfl

@[simp] theorem afterCloseWorkDirFD_directoryChars (env : Env) (l : Locals) :
    (afterCloseWorkDirFD env l).directoryChars = l.directoryChars := by
  unfold afterCloseWorkDirFD; split_ifs <;> rfl

@[simp] theorem afterCloseWorkDirFD_logFileChars (env : Env) (l : Locals) :
    (afterCloseWorkDirFD env l).logFileChars = l.logFileChars := by
  unfold afterCloseWorkDirFD; split_ifs <;> rfl

@[simp] theorem afterCloseWorkDirFD_workDirChars (env : Env) (l : Locals) :
    (afterCloseWorkDirFD env l).workDirChars = l.workDirChars := by
  unfold afterCloseWorkDirFD; split_ifs <;> rfl

@[simp] theorem afterCloseDirFD_directoryChars (env : Env) (l : Locals) :
    (afterCloseDirFD env l).directoryChars = l.directoryChars := by
  unfold afterCloseDirFD; split_ifs <;> rfl

@[simp] theorem afterCloseDirFD_logFileChars (env : Env) (l : Locals) :
    (afterCloseDirFD env l).logFileChars = l.logFileChars := by
  unfold afterCloseDirFD; split_ifs <;> rfl

@[simp] theorem afterCloseDirFD_workDirChars (env : Env) (l : Locals) :
    (afterCloseDirFD env l).workDirChars = l.workDirChars := by
  unfold afterCloseDirFD; split_ifs <;> rfl

/-- The calls from `freeWorkDir:` on depend on the three path pointers only. -/
theorem atFreeWorkDir_calls_congr {l k : Locals} (h1 : l.workDirChars = k.workDirChars)
    (h2 : l.logFileChars = k.logFileChars) (h3 : l.directoryChars = k.directoryChars) :
    (atFreeWorkDir l).2 = (atFreeWorkDir k).2 := by
  simp [atFreeWorkDir, atFreeLog, atFreeDir, h1, h2, h3]

@[simp] theorem atFreeDir_locals (l : Locals) : (atFreeDir l).1 = l := rfl

@[simp] theorem atFreeLog_locals (l : Locals) : (atFreeLog l).1 = l := rfl

@[simp] theorem atFreeWorkDir_locals (l : Locals) : (atFreeWorkDir l).1 = l := rfl

@[simp] theorem atCloseDirFD_locals (env : Env) (l : Locals) :
    (atCloseDirFD env l).1 = afterCloseDirFD env l := rfl

@[simp] theorem atCloseWorkDirFD_locals (env : Env) (l : Locals) :
    (atCloseWorkDirFD env l).1 = afterCloseDirFD env (afterCloseWorkDirFD env l) := rfl

@[simp] theorem atReleaseExclusive_locals (env : Env) (l : Locals) :
    (atReleaseExclusive env l).1 = afterCloseDirFD env (afterCloseWorkDirFD env l) := rfl

theorem atCloseDirFD_calls (env : Env) (l : Locals) :
    (atCloseDirFD env l).2 = Event.closeDirFD l.dirFD :: (atFreeWorkDir l).2 := by
  unfold atCloseDirFD
  rw [atFreeWorkDir_calls_congr (afterCloseDirFD_workDirChars env l)
    (afterCloseDirFD_logFileChars env l) (afterCloseDirFD_directoryChars env l)]

theorem atCloseWorkDirFD_calls (env : Env) (l : Locals) :
    (atCloseWorkDirFD env l).2 =
      Event.closeWorkDirFD l.workDirFD :: Event.closeDirFD l.dirFD :: (atFreeWorkDir l).2 := by
  unfold atCloseWorkDirFD
  rw [atCloseDirFD_calls, afterCloseWorkDirFD_dirFD,
    atFreeWorkDir_calls_congr (afterCloseWorkDirFD_workDirChars env l)
      (afterCloseWorkDirFD_logFileChars env l) (afterCloseWorkDirFD_directoryChars env l)]

theorem atReleaseExclusive_calls (env : Env) (l : Locals) :
    (atReleaseExclusive env l).2 =
      Event.releaseExclusiveVMAccess :: Event.closeWorkDirFD l.workDirFD ::
        Event.closeDirFD l.dirFD :: (atFreeWorkDir l).2 := by
  unfold atReleaseExclusive
  rw [atCloseWorkDirFD_calls]

/-- The calls from any of the three `free` labels on release buffers in the
order work directory, log file, image directory, and do nothing else but leave
the VM. -/
theorem free_calls (l : Locals) (t : List Event)
    (ht : t = (atFreeWorkDir l).2 ∨ t = (atFreeLog l).2 ∨ t = (atFreeDir l).2) :
    (∀ e ∈ t, e.isFree = true) ∧
    (t.filterMap Event.teardown).Sublist
      [TeardownAction.freeWorkDirBuffer, TeardownAction.freeLogFileBuffer,
        TeardownAction.freeImageDirBuffer] := by
  rcases ht with rfl | rfl | rfl <;>
    by_cases h1 : l.workDirChars = Ptr.own <;> by_cases h2 : l.logFileChars = Ptr.own <;>
    by_cases h3 : l.directoryChars = Ptr.own <;>
    simp [atFreeWorkDir, atFreeLog, atFreeDir, h1, h2, h3, Event.isFree, Event.teardown]

/-- The result of the closes: an already recorded failure is kept; otherwise the
first failing `close` is recorded. -/
theorem afterCloses_outcome (env : Env) (l : Locals) :
    ((afterCloseDirFD env (afterCloseWorkDirFD env l)).currentExceptionClass,
      (afterCloseDirFD env (afterCloseWorkDirFD env l)).systemReturnCode) =
    match l.currentExceptionClass with
    | some c => (some c, l.systemReturnCode)
    | none =>
      if 0 ≠ env.closeWorkDirFD then
        (some (closeFailureClass l.isAfterCheckpoint), env.closeWorkDirFDErrno)
      else if 0 ≠ env.closeDirFD then
        (some (closeFailureClass l.isAfterCheckpoint), env.closeDirFDErrno)
      else (none, l.systemReturnCode) := by
  cases hc : l.currentExceptionClass with
  | some c => simp [afterCloseDirFD, afterCloseWorkDirFD, hc]
  | none =>
    by_cases h1 : env.closeWorkDirFD = 0
    · by_cases h2 : env.closeDirFD = 0
      · simp [afterCloseDirFD, afterCloseWorkDirFD, hc, h1, h2]
      · simp [afterCloseDirFD, afterCloseWorkDirFD, hc, h1, Ne.symm h2]
    · simp [afterCloseDirFD, afterCloseWorkDirFD, hc, Ne.symm h1]

theorem afterCloseDirFD_outcome (env : Env) (l : Locals) :
    ((afterCloseDirFD env l).currentExceptionClass, (afterCloseDirFD env l).systemReturnCode) =
    match l.currentExceptionClass with
    | some c => (some c, l.systemReturnCode)
    | none =>
      if 0 ≠ env.closeDirFD then
        (some (closeFailureClass l.isAfterCheckpoint), env.closeDirFDErrno)
      else (none, l.systemReturnCode) := by
  cases hc : l.currentExceptionClass with
  | some c => simp [afterCloseDirFD, hc]
  | none =>
    by_cases h2 : env.closeDirFD = 0
    · simp [afterCloseDirFD, hc, h2]
    · simp [afterCloseDirFD, hc, Ne.symm h2]

theorem throwException_isRaise (env : Env) (l : Locals) :
    ∀ e ∈ throwException env l, e.isRaise = true := by
  unfold throwException
  cases l.currentExceptionClass with
  | none => simp
  | some c =>
    simp only
    split_ifs <;> simp [Event.isRaise]

/-! ### The checkpoint itself and whole runs -/

theorem isSetup_teardown {e : Event} (h : e.isSetup = true) : e.teardown = none := by
  cases e <;> simp_all [Event.isSetup, Event.teardown, Event.isCriu]

theorem isSetup_isGuarded {e : Event} (h : e.isSetup = true) : e.isGuarded = false := by
  cases e <;> simp_all [Event.isSetup, Event.isGuarded, Event.isCriu]

theorem isFree_isForwardStep {e : Event} (h : e.isFree = true) : e.isForwardStep = false := by
  cases e <;> simp_all [Event.isFree, Event.isForwardStep, Event.isCriu]

theorem isFree_isGuarded {e : Event} (h : e.isFree = true) : e.isGuarded = false := by
  cases e <;> simp_all [Event.isFree, Event.isGuarded]

theorem isRaise_isForwardStep {e : Event} (h : e.isRaise = true) : e.isForwardStep = false := by
  cases e <;> simp_all [Event.isRaise, Event.isForwardStep, Event.isCriu]

theorem isRaise_isGuarded {e : Event} (h : e.isRaise = true) : e.isGuarded = false := by
  cases e <;> simp_all [Event.isRaise, Event.isGuarded]

theorem isRaise_teardown {e : Event} (h : e.isRaise = true) : e.teardown = none := by
  cases e <;> simp_all [Event.isRaise, Event.teardown]

theorem filterMap_teardown_eq_nil {t : List Event} (h : ∀ e ∈ t, e.teardown = none) :
    t.filterMap Event.teardown = [] := by
  induction t with
  | nil => rfl
  | cons a t ih =>
    have ha : a.teardown = none := h a (List.mem_cons_self a t)
    rw [List.filterMap_cons_none ha]
    exact ih fun e he => h e (List.mem_cons_of_mem a he)

theorem not_mem_of_isFree {t : List Event} (h : ∀ e ∈ t, e.isFree = true) {e : Event}
    (he : e.isFree = false) : e ∉ t := by
  intro hm
  rw [h e hm] at he
  cases he

theorem not_mem_of_isRaise {t : List Event} (h : ∀ e ∈ t, e.isRaise = true) {e : Event}
    (he : e.isRaise = false) : e ∉ t := by
  intro hm
  rw [h e hm] at he
  cases he

/-- The three ways through lines 336-354. -/
theorem checkpoint_cases (env : Env) (l : Locals) :
    (env.jvmCheckpointHooks = false ∧
      (checkpoint env l).calls = [Event.acquireExclusiveVMAccess, Event.jvmCheckpointHooks] ∧
      (checkpoint env l).locals = l) ∨
    (env.jvmCheckpointHooks = true ∧ env.criu_dump < 0 ∧
      (checkpoint env l).calls =
        [Event.acquireExclusiveVMAccess, Event.jvmCheckpointHooks, Event.criu_dump] ∧
      (checkpoint env l).locals =
        { l with
          systemReturnCode := env.criu_dump,
          currentExceptionClass := some ExceptionClass.criuSystemCheckpointExceptionClass,
          nlsMsgFormat := some NlsMsg.J9NLS_JCL_CRIU_DUMP_FAILED }) ∨
    (env.jvmCheckpointHooks = true ∧ 0 ≤ env.criu_dump ∧
      (checkpoint env l).calls =
        [Event.acquireExclusiveVMAccess, Event.jvmCheckpointHooks, Event.criu_dump,
          Event.jvmRestoreHooks] ∧
      (checkpoint env l).locals =
        { l with systemReturnCode := env.criu_dump, isAfterCheckpoint := true }) := by
  cases hk : env.jvmCheckpointHooks
  · left
    simp [checkpoint, hk]
  · right
    by_cases hd : env.criu_dump < 0
    · left
      simp [checkpoint, hk, hd]
    · right
      refine ⟨rfl, not_lt.mp hd, ?_, ?_⟩ <;>
        cases hr : env.jvmRestoreHooks <;> simp [checkpoint, hk, hd, hr]

theorem checkpoint_entryLabel (env : Env) (l : Locals) :
    entryLabel (checkpoint env l) = Label.releaseExclusive := by
  unfold entryLabel checkpoint
  simp only
  split_ifs <;> rfl

@[simp] theorem checkpoint_dirFD (env : Env) (l : Locals) :
    (checkpoint env l).locals.dirFD = l.dirFD := by
  unfold checkpoint
  simp only
  split_ifs <;> rfl

@[simp] theorem checkpoint_workDirFD (env : Env) (l : Locals) :
    (checkpoint env l).locals.workDirFD = l.workDirFD := by
  unfold checkpoint
  simp only
  split_ifs <;> rfl

@[simp] theorem checkpoint_workDirChars (env : Env) (l : Locals) :
    (checkpoint env l).locals.workDirChars = l.workDirChars := by
  unfold checkpoint
  simp only
  split_ifs <;> rfl

@[simp] theorem checkpoint_logFileChars (env : Env) (l : Locals) :
    (checkpoint env l).locals.logFileChars = l.logFileChars := by
  unfold checkpoint
  simp only
  split_ifs <;> rfl

@[simp] theorem checkpoint_directoryChars (env : Env) (l : Locals) :
    (checkpoint env l).locals.directoryChars = l.directoryChars := by
  unfold checkpoint
  simp only
  split_ifs <;> rfl

/-- A run in which lines 243-334 fall through to line 336. -/
theorem run_of_setup_none (args : Args) (env : Env) (ha : env.isCheckpointAllowed = true)
    (ht : (setup args env).target = none) :
    (checkpointJVMImpl args env).trace =
      (setup args env).calls ++ (checkpoint env (setup args env).locals).calls ++
        (Event.releaseExclusiveVMAccess ::
          Event.closeWorkDirFD (setup args env).locals.workDirFD ::
          Event.closeDirFD (setup args env).locals.dirFD ::
          (atFreeWorkDir (setup args env).locals).2) ++
        throwException env (checkpointJVMImpl args env).locals ∧
    (checkpointJVMImpl args env).locals =
      afterCloseDirFD env (afterCloseWorkDirFD env (checkpoint env (setup args env).locals).locals) := by
  have hb : body args env =
      ⟨(checkpoint env (setup args env).locals).target,
        (checkpoint env (setup args env).locals).locals,
        (setup args env).calls ++ (checkpoint env (setup args env).locals).calls⟩ := by
    unfold body
    exact andThen_of_target_none ht
  have he : entryLabel (body args env) = Label.releaseExclusive := by
    rw [hb]
    exact checkpoint_entryLabel env _
  have hf : (atFreeWorkDir (checkpoint env (setup args env).locals).locals).2
      = (atFreeWorkDir (setup args env).locals).2 :=
    atFreeWorkDir_calls_congr (checkpoint_workDirChars _ _) (checkpoint_logFileChars _ _)
      (checkpoint_directoryChars _ _)
  simp only [checkpointJVMImpl, ha, if_true, he, cleanup, atReleaseExclusive_calls,
    atReleaseExclusive_locals]
  rw [hb]
  simp only [checkpoint_dirFD, checkpoint_workDirFD, hf, and_self]

/-- A run in which lines 243-334 end in a `goto`. -/
theorem run_of_setup_some (args : Args) (env : Env) (ha : env.isCheckpointAllowed = true)
    {t : Label} (ht : (setup args env).target = some t) :
    (checkpointJVMImpl args env).trace =
      (setup args env).calls ++ (cleanup env t (setup args env).locals).2 ++
        throwException env (checkpointJVMImpl args env).locals ∧
    (checkpointJVMImpl args env).locals = (cleanup env t (setup args env).locals).1 := by
  have hb : body args env = setup args env := by
    unfold body
    exact andThen_of_target_some ht
  have he : entryLabel (setup args env) = t := by
    simp [entryLabel, ht]
  simp only [checkpointJVMImpl, ha, if_true, hb, he, and_self]

theorem run_not_allowed (args : Args) (env : Env) (ha : env.isCheckpointAllowed = false) :
    checkpointJVMImpl args env = { locals := {}, trace := [] } := by
  simp [checkpointJVMImpl, ha, throwException]

/-- The shape of the trace of every run in which checkpointing is allowed:
setup calls, then the guarded calls, then release and closes, then the buffer
releases, then the calls that raise the exception. -/
theorem run_shape (args : Args) (env : Env) (ha : env.isCheckpointAllowed = true) :
    ∃ S G T F : List Event,
      (checkpointJVMImpl args env).trace
        = S ++ G ++ T ++ F ++ throwException env (checkpointJVMImpl args env).locals ∧
      (∀ e ∈ S, e.isSetup = true) ∧
      (∀ e ∈ F, e.isFree = true) ∧
      (F.filterMap Event.teardown).Sublist
        [TeardownAction.freeWorkDirBuffer, TeardownAction.freeLogFileBuffer,
          TeardownAction.freeImageDirBuffer] ∧
      ((G = [] ∧ (T = [] ∨ (∃ fd, T = [Event.closeDirFD fd]) ∨
          ∃ fd fd2, T = [Event.closeWorkDirFD fd, Event.closeDirFD fd2])) ∨
        (Event.criu_init_opts ∈ S ∧ env.criu_init_opts = 0 ∧
          (G = [Event.acquireExclusiveVMAccess, Event.jvmCheckpointHooks] ∨
            G = [Event.acquireExclusiveVMAccess, Event.jvmCheckpointHooks, Event.criu_dump] ∨
            G = [Event.acquireExclusiveVMAccess, Event.jvmCheckpointHooks, Event.criu_dump,
              Event.jvmRestoreHooks]) ∧
          ∃ fd fd2, T = [Event.releaseExclusiveVMAccess, Event.closeWorkDirFD fd,
            Event.closeDirFD fd2])) := by
  have hS := (setup_isSetup args env).1
  cases ht : (setup args env).target with
  | none =>
    obtain ⟨htr, _⟩ := run_of_setup_none args env ha ht
    obtain ⟨hi0, him⟩ := setup_target_none args env ht
    obtain ⟨hF, hFs⟩ := free_calls (setup args env).locals _ (Or.inl rfl)
    refine ⟨(setup args env).calls, (checkpoint env (setup args env).locals).calls,
      [Event.releaseExclusiveVMAccess, Event.closeWorkDirFD (setup args env).locals.workDirFD,
        Event.closeDirFD (setup args env).locals.dirFD],
      (atFreeWorkDir (setup args env).locals).2, ?_, hS, hF, hFs, Or.inr ⟨him, hi0, ?_, _, _, rfl⟩⟩
    · rw [htr]
      simp
    · rcases checkpoint_cases env (setup args env).locals with h | h | h
      · exact Or.inl h.2.1
      · exact Or.inr (Or.inl h.2.2.1)
      · exact Or.inr (Or.inr h.2.2.1)
  | some t =>
    obtain ⟨htr, _⟩ := run_of_setup_some args env ha ht
    have hne : t ≠ Label.releaseExclusive := by
      intro h
      exact (setup_isSetup args env).2.2 (by rw [ht, h])
    cases t with
    | releaseExclusive => exact absurd rfl hne
    | closeWorkDirFD =>
      obtain ⟨hF, hFs⟩ := free_calls (setup args env).locals _ (Or.inl rfl)
      refine ⟨_, [], [Event.closeWorkDirFD (setup args env).locals.workDirFD,
        Event.closeDirFD (setup args env).locals.dirFD], _, ?_, hS, hF, hFs,
        Or.inl ⟨rfl, Or.inr (Or.inr ⟨_, _, rfl⟩)⟩⟩
      rw [htr]
      simp [cleanup, atCloseWorkDirFD_calls]
    | closeDirFD =>
      obtain ⟨hF, hFs⟩ := free_calls (setup args env).locals _ (Or.inl rfl)
      refine ⟨_, [], [Event.closeDirFD (setup args env).locals.dirFD], _, ?_, hS, hF, hFs,
        Or.inl ⟨rfl, Or.inr (Or.inl ⟨_, rfl⟩)⟩⟩
      rw [htr]
      simp [cleanup, atCloseDirFD_calls]
    | freeWorkDir =>
      obtain ⟨hF, hFs⟩ := free_calls (setup args env).locals _ (Or.inl rfl)
      refine ⟨_, [], [], _, ?_, hS, hF, hFs, Or.inl ⟨rfl, Or.inl rfl⟩⟩
      rw [htr]
      simp [cleanup]
    | freeLog =>
      obtain ⟨hF, hFs⟩ := free_calls (setup args env).locals _ (Or.inr (Or.inl rfl))
      refine ⟨_, [], [], _, ?_, hS, hF, hFs, Or.inl ⟨rfl, Or.inl rfl⟩⟩
      rw [htr]
      simp [cleanup]
    | freeDir =>
      obtain ⟨hF, hFs⟩ := free_calls (setup args env).locals _ (Or.inr (Or.inr rfl))
      refine ⟨_, [], [], _, ?_, hS, hF, hFs, Or.inl ⟨rfl, Or.inl rfl⟩⟩
      rw [htr]
      simp [cleanup]

/-- C7: in every run the teardown actions that occur appear in the order
release of exclusive VM access, close of the work-directory descriptor, close of
the image-directory descriptor, release of the work-dir, log-file and image-dir
path buffers; and the trace splits into a first part without any teardown
action and a second part without any acquisition, engine or hook step. -/
theorem teardown_order (args : Args) (env : Env) :
    ((checkpointJVMImpl args env).trace.filterMap Event.teardown).Sublist teardownOrder ∧
    ∃ pre post : List Event,
      (checkpointJVMImpl args env).trace = pre ++ post ∧
      (∀ e ∈ pre, e.teardown = none) ∧
      (∀ e ∈ post, e.isForwardStep = false) := by
  cases ha : env.isCheckpointAllowed with
  | false =>
    rw [run_not_allowed args env ha]
    exact ⟨by simp, [], [], rfl, by simp, by simp⟩
  | true =>
    obtain ⟨S, G, T, F, htr, hS, hF, hFs, hGT⟩ := run_shape args env ha
    have hR := throwException_isRaise env (checkpointJVMImpl args env).locals
    have hS0 : S.filterMap Event.teardown = [] :=
      filterMap_teardown_eq_nil fun e he => isSetup_teardown (hS e he)
    have hR0 : (throwException env (checkpointJVMImpl args env).locals).filterMap Event.teardown
        = [] :=
      filterMap_teardown_eq_nil fun e he => isRaise_teardown (hR e he)
    have hpost : ∀ e ∈ F ++ throwException env (checkpointJVMImpl args env).locals,
        e.isForwardStep = false := by
      intro e he
      rcases List.mem_append.mp he with h | h
      · exact isFree_isForwardStep (hF e h)
      · exact isRaise_isForwardStep (hR e h)
    have hG0 : ∀ e ∈ G, e.teardown = none := by
      rcases hGT with ⟨hG, _⟩ | ⟨_, _, hG | hG | hG, _⟩ <;> subst hG <;> simp [Event.teardown]
    have hT0 : ∀ e ∈ T, e.isForwardStep = false := by
      rcases hGT with ⟨_, hT | ⟨fd, hT⟩ | ⟨fd, fd2, hT⟩⟩ | ⟨_, _, _, fd, fd2, hT⟩ <;>
        subst hT <;> simp [Event.isForwardStep, Event.isCriu]
    refine ⟨?_, S ++ G, T ++ (F ++ throwException env (checkpointJVMImpl args env).locals),
      by rw [htr]; simp, ?_, ?_⟩
    · rw [htr]
      simp only [List.filterMap_append, hS0, hR0, filterMap_teardown_eq_nil hG0,
        List.nil_append, List.append_nil]
      rcases hGT with ⟨_, hT | ⟨fd, hT⟩ | ⟨fd, fd2, hT⟩⟩ | ⟨_, _, _, fd, fd2, hT⟩ <;> subst hT
      · exact hFs.trans (by decide)
      · exact (List.Sublist.append (List.Sublist.refl [TeardownAction.closeImageDir]) hFs).trans
          (by decide)
      · exact (List.Sublist.append
          (List.Sublist.refl [TeardownAction.closeWorkDir, TeardownAction.closeImageDir])
          hFs).trans (by decide)
      · exact List.Sublist.append (List.Sublist.refl [TeardownAction.releaseExclusive,
          TeardownAction.closeWorkDir, TeardownAction.closeImageDir]) hFs
    · intro e he
      rcases List.mem_append.mp he with h | h
      · exact isSetup_teardown (hS e h)
      · exact hG0 e h
    · intro e he
      rcases List.mem_append.mp he with h | h
      · exact hT0 e h
      · exact hpost e h

/-- C8: in every run exclusive VM access is requested at most once and released
exactly as often as it was requested; when it is requested, `criu_init_opts`
was called before and returned 0, no teardown action precedes the release, and
the hooks and `criu_dump` are called only between the request and the release;
when it is not requested, neither hook nor `criu_dump` is called. -/
theorem exclusive_access_bracket (args : Args) (env : Env) :
    (checkpointJVMImpl args env).trace.count Event.acquireExclusiveVMAccess ≤ 1 ∧
    (checkpointJVMImpl args env).trace.count Event.releaseExclusiveVMAccess
      = (checkpointJVMImpl args env).trace.count Event.acquireExclusiveVMAccess ∧
    (Event.acquireExclusiveVMAccess ∈ (checkpointJVMImpl args env).trace →
      ∃ pre mid post : List Event,
        (checkpointJVMImpl args env).trace
          = pre ++ Event.acquireExclusiveVMAccess :: mid
            ++ Event.releaseExclusiveVMAccess :: post ∧
        Event.criu_init_opts ∈ pre ∧ env.criu_init_opts = 0 ∧
        (∀ e ∈ pre, e.teardown = none ∧ e.isGuarded = false) ∧
        (∀ e ∈ mid, e.teardown = none) ∧
        (∀ e ∈ post, e.isGuarded = false)) ∧
    (Event.acquireExclusiveVMAccess ∉ (checkpointJVMImpl args env).trace →
      ∀ e ∈ (checkpointJVMImpl args env).trace, e.isGuarded = false) := by
  cases ha : env.isCheckpointAllowed with
  | false =>
    rw [run_not_allowed args env ha]
    simp
  | true =>
    obtain ⟨S, G, T, F, htr, hS, hF, hFs, hGT⟩ := run_shape args env ha
    have hR := throwException_isRaise env (checkpointJVMImpl args env).locals
    have hSa : Event.acquireExclusiveVMAccess ∉ S := not_mem_of_isSetup hS rfl
    have hSr : Event.releaseExclusiveVMAccess ∉ S := not_mem_of_isSetup hS rfl
    have hFa : Event.acquireExclusiveVMAccess ∉ F := not_mem_of_isFree hF rfl
    have hFr : Event.releaseExclusiveVMAccess ∉ F := not_mem_of_isFree hF rfl
    have hRa : Event.acquireExclusiveVMAccess ∉
        throwException env (checkpointJVMImpl args env).locals := not_mem_of_isRaise hR rfl
    have hRr : Event.releaseExclusiveVMAccess ∉
        throwException env (checkpointJVMImpl args env).locals := not_mem_of_isRaise hR rfl
    have hSg : ∀ e ∈ S, e.teardown = none ∧ e.isGuarded = false := fun e he =>
      ⟨isSetup_teardown (hS e he), isSetup_isGuarded (hS e he)⟩
    have htail : ∀ e ∈ F ++ throwException env (checkpointJVMImpl args env).locals,
        e.isGuarded = false := by
      intro e he
      rcases List.mem_append.mp he with h | h
      · exact isFree_isGuarded (hF e h)
      · exact isRaise_isGuarded (hR e h)
    rw [htr]
    rcases hGT with ⟨hG, hT⟩ | ⟨him, hi0, hG, fd, fd2, hT⟩
    · subst hG
      have hTa : Event.acquireExclusiveVMAccess ∉ T ∧ Event.releaseExclusiveVMAccess ∉ T ∧
          ∀ e ∈ T, e.isGuarded = false := by
        rcases hT with hT | ⟨fd, hT⟩ | ⟨fd, fd2, hT⟩ <;> subst hT <;> simp [Event.isGuarded]
      have hna : Event.acquireExclusiveVMAccess ∉
          S ++ [] ++ T ++ F ++ throwException env (checkpointJVMImpl args env).locals := by
        simp [hSa, hTa.1, hFa, hRa]
      have hnr : Event.releaseExclusiveVMAccess ∉
          S ++ [] ++ T ++ F ++ throwException env (checkpointJVMImpl args env).locals := by
        simp [hSr, hTa.2.1, hFr, hRr]
      refine ⟨?_, ?_, fun h => absurd h hna, ?_⟩
      · rw [List.count_eq_zero.mpr hna]
        exact Nat.zero_le 1
      · rw [List.count_eq_zero.mpr hna, List.count_eq_zero.mpr hnr]
      · intro _ e he
        simp only [List.append_nil, List.append_assoc, List.mem_append] at he
        rcases he with h | h | h | h
        · exact (hSg e h).2
        · exact hTa.2.2 e h
        · exact isFree_isGuarded (hF e h)
        · exact isRaise_isGuarded (hR e h)
    · subst hT
      have hca : S.count Event.acquireExclusiveVMAccess = 0 := List.count_eq_zero.mpr hSa
      have hcr : S.count Event.releaseExclusiveVMAccess = 0 := List.count_eq_zero.mpr hSr
      have hfa : F.count Event.acquireExclusiveVMAccess = 0 := List.count_eq_zero.mpr hFa
      have hfr : F.count Event.releaseExclusiveVMAccess = 0 := List.count_eq_zero.mpr hFr
      have hra := List.count_eq_zero.mpr hRa
      have hrr := List.count_eq_zero.mpr hRr
      have hpost : ∀ e ∈ Event.closeWorkDirFD fd :: Event.closeDirFD fd2 ::
          (F ++ throwException env (checkpointJVMImpl args env).locals),
          e.isGuarded = false := by
        intro e he
        simp only [List.mem_cons] at he
        rcases he with h | h | h
        · subst h; rfl
        · subst h; rfl
        · exact htail e h
      rcases hG with hG | hG | hG <;> subst hG
      · refine ⟨?_, ?_, fun _ => ⟨S, [Event.jvmCheckpointHooks], _, ?_, him, hi0, hSg, ?_, hpost⟩,
          fun h => absurd (by simp) h⟩
        · simp [List.count_append, List.count_cons, hca, hfa, hra]
        · simp [List.count_append, List.count_cons, hca, hfa, hra, hcr, hfr, hrr]
        · simp
        · simp [Event.teardown]
      · refine ⟨?_, ?_, fun _ => ⟨S, [Event.jvmCheckpointHooks, Event.criu_dump], _, ?_, him, hi0,
          hSg, ?_, hpost⟩, fun h => absurd (by simp) h⟩
        · simp [List.count_append, List.count_cons, hca, hfa, hra]
        · simp [List.count_append, List.count_cons, hca, hfa, hra, hcr, hfr, hrr]
        · simp
        · simp [Event.teardown]
      · refine ⟨?_, ?_, fun _ => ⟨S, [Event.jvmCheckpointHooks, Event.criu_dump,
          Event.jvmRestoreHooks], _, ?_, him, hi0, hSg, ?_, hpost⟩, fun h => absurd (by simp) h⟩
        · simp [List.count_append, List.count_cons, hca, hfa, hra]
        · simp [List.count_append, List.count_cons, hca, hfa, hra, hcr, hfr, hrr]
        · simp
        · simp [Event.teardown]

theorem isSetup_isRaise {e : Event} (h : e.isSetup = true) : e.isRaise = false := by
  cases e <;> first | rfl | simp [Event.isSetup, Event.isCriu] at h

theorem isFree_isRaise {e : Event} (h : e.isFree = true) : e.isRaise = false := by
  cases e <;> first | rfl | simp [Event.isFree] at h

theorem thrown_of_not_isRaise {e : Event} (h : e.isRaise = false) : e.thrown = none := by
  cases e <;> first | rfl | simp [Event.isRaise] at h

theorem filterMap_thrown_eq_nil {t : List Event} (h : ∀ e ∈ t, e.isRaise = false) :
    t.filterMap Event.thrown = [] := by
  induction t with
  | nil => rfl
  | cons a t ih =>
    rw [List.filterMap_cons_none (thrown_of_not_isRaise (h a (List.mem_cons_self a t)))]
    exact ih fun e he => h e (List.mem_cons_of_mem a he)

theorem throwException_thrown (env : Env) (l : Locals) :
    (throwException env l).filterMap Event.thrown =
      match l.currentExceptionClass with
      | none => []
      | some c =>
        if env.exceptionCheck = false ∧ env.newObject = true then
          [(c, toJint l.systemReturnCode)]
        else [] := by
  cases hc : l.currentExceptionClass with
  | none => simp [throwException, hc]
  | some c =>
    cases h1 : env.exceptionCheck <;> cases h2 : env.newObject <;>
      cases h3 : env.allocateExceptionMsg <;>
      simp [throwException, hc, h1, h2, h3, Event.thrown]

/-- What the function throws, in terms of what it recorded: nothing when no
failure was recorded or when building the exception object did not go through,
otherwise one exception of the recorded class carrying `(jint)systemReturnCode`. -/
theorem thrown_eq (args : Args) (env : Env) :
    thrown (checkpointJVMImpl args env) =
      match outcome (checkpointJVMImpl args env) with
      | none => []
      | some (c, code) =>
        if env.exceptionCheck = false ∧ env.newObject = true then [(c, toJint code)] else [] := by
  have key : thrown (checkpointJVMImpl args env) =
      (throwException env (checkpointJVMImpl args env).locals).filterMap Event.thrown := by
    cases ha : env.isCheckpointAllowed with
    | false =>
      rw [run_not_allowed args env ha]
      simp [thrown, throwException]
    | true =>
      obtain ⟨S, G, T, F, htr, hS, hF, _, hGT⟩ := run_shape args env ha
      have hG : ∀ e ∈ G, e.isRaise = false := by
        rcases hGT with ⟨hG, _⟩ | ⟨_, _, hG | hG | hG, _⟩ <;> subst hG <;> simp [Event.isRaise]
      have hT : ∀ e ∈ T, e.isRaise = false := by
        rcases hGT with ⟨_, hT | ⟨fd, hT⟩ | ⟨fd, fd2, hT⟩⟩ | ⟨_, _, _, fd, fd2, hT⟩ <;>
          subst hT <;> simp [Event.isRaise]
      unfold thrown
      rw [htr]
      simp only [List.filterMap_append,
        filterMap_thrown_eq_nil fun e he => isSetup_isRaise (hS e he),
        filterMap_thrown_eq_nil fun e he => isFree_isRaise (hF e he),
        filterMap_thrown_eq_nil hG, filterMap_thrown_eq_nil hT, List.nil_append]
  rw [key, throwException_thrown]
  unfold outcome
  cases (checkpointJVMImpl args env).locals.currentExceptionClass <;> rfl

/-- C9: when `isCheckpointAllowed` returns false the function makes no external
call at all (no conversion, no open or close, no CRIU call, no request for
exclusive access, no hook), records no failure and throws nothing. -/
theorem checkpoint_not_allowed (args : Args) (env : Env)
    (h : env.isCheckpointAllowed = false) :
    (checkpointJVMImpl args env).trace = [] ∧
    outcome (checkpointJVMImpl args env) = none ∧
    thrown (checkpointJVMImpl args env) = [] := by
  rw [run_not_allowed args env h]
  simp [outcome, thrown]

theorem checkpoint_not_allowed_witness :
    ({ sampleEnv with isCheckpointAllowed := false } : Env).isCheckpointAllowed = false ∧
    (checkpointJVMImpl sampleArgsWorkDir { sampleEnv with isCheckpointAllowed := false }).trace
      = [] ∧
    outcome (checkpointJVMImpl sampleArgsWorkDir { sampleEnv with isCheckpointAllowed := false })
      = none ∧
    thrown (checkpointJVMImpl sampleArgsWorkDir { sampleEnv with isCheckpointAllowed := false })
      = [] :=
  ⟨rfl, checkpoint_not_allowed sampleArgsWorkDir { sampleEnv with isCheckpointAllowed := false } rfl⟩

/-- The failure recorded once both closes were made. -/
theorem outcome_afterCloses (env : Env) (l : Locals) (t : List Event) :
    outcome ⟨afterCloseDirFD env (afterCloseWorkDirFD env l), t⟩ =
    match l.currentExceptionClass with
    | some c => some (c, l.systemReturnCode)
    | none =>
      if 0 ≠ env.closeWorkDirFD then
        some (closeFailureClass l.isAfterCheckpoint, env.closeWorkDirFDErrno)
      else if 0 ≠ env.closeDirFD then
        some (closeFailureClass l.isAfterCheckpoint, env.closeDirFDErrno)
      else none := by
  have h := afterCloses_outcome env l
  rw [Prod.ext_iff] at h
  obtain ⟨h1, h2⟩ := h
  simp only at h1 h2
  unfold outcome
  simp only
  rw [h1, h2]
  cases hc : l.currentExceptionClass with
  | some c => simp
  | none =>
    simp only
    split_ifs <;> simp

/-- A run in which every step before the request for exclusive VM access
succeeds. -/
theorem run_of_setupSucceeds (args : Args) (env : Env) (h : setupSucceeds args env) :
    (checkpointJVMImpl args env).trace =
      (setup args env).calls ++ (checkpoint env (setup args env).locals).calls ++
        (Event.releaseExclusiveVMAccess ::
          Event.closeWorkDirFD (if args.workDir then env.openWorkDir else 0) ::
          Event.closeDirFD env.openDirectory ::
          (atFreeWorkDir (setup args env).locals).2) ++
        throwException env (checkpointJVMImpl args env).locals ∧
    checkpointJVMImpl args env =
      ⟨afterCloseDirFD env
        (afterCloseWorkDirFD env (checkpoint env (setup args env).locals).locals),
        (checkpointJVMImpl args env).trace⟩ ∧
    (setup args env).locals.currentExceptionClass = none ∧
    (setup args env).locals.isAfterCheckpoint = false := by
  obtain ⟨ht, hc, hd, hw⟩ := setup_of_succeeds args env h
  obtain ⟨h1, h2⟩ := run_of_setup_none args env h.1 ht
  rw [hd, hw] at h1
  refine ⟨h1, ?_, hc, (setup_isSetup args env).2.1⟩
  rw [← h2]

theorem filter_eq_nil_of_forall {p : Event → Bool} {t : List Event}
    (h : ∀ e ∈ t, p e = false) : t.filter p = [] := by
  induction t with
  | nil => rfl
  | cons a t ih =>
    rw [List.filter_cons_of_neg (by simp [h a (List.mem_cons_self a t)])]
    exact ih fun e he => h e (List.mem_cons_of_mem a he)

theorem isSetup_isCloseDir {e : Event} (h : e.isSetup = true) : e.isCloseDir = false := by
  cases e <;> first | rfl | simp [Event.isSetup, Event.isCriu] at h

theorem isSetup_isCloseWorkDir {e : Event} (h : e.isSetup = true) :
    e.isCloseWorkDir = false := by
  cases e <;> first | rfl | simp [Event.isSetup, Event.isCriu] at h

theorem isFree_isCloseDir {e : Event} (h : e.isFree = true) : e.isCloseDir = false := by
  cases e <;> first | rfl | simp [Event.isFree] at h

theorem isFree_isCloseWorkDir {e : Event} (h : e.isFree = true) :
    e.isCloseWorkDir = false := by
  cases e <;> first | rfl | simp [Event.isFree] at h

theorem isRaise_isCloseDir {e : Event} (h : e.isRaise = true) : e.isCloseDir = false := by
  cases e <;> first | rfl | simp [Event.isRaise] at h

theorem isRaise_isCloseWorkDir {e : Event} (h : e.isRaise = true) :
    e.isCloseWorkDir = false := by
  cases e <;> first | rfl | simp [Event.isRaise] at h

/-- C1 (amended): when checkpointing is allowed, every step before the
pre-checkpoint hook succeeds and `jvmCheckpointHooks` reports failure, then
`criu_dump` is not called, exclusive access is released, the image-directory
descriptor is closed and so is the work-directory descriptor when a work
directory was requested; the function records no failure for the hook: with
both closes returning 0 it records nothing and throws nothing, and a failing
close is recorded as `SystemCheckpointException` with the `errno` of that close. -/
theorem precheckpoint_hook_failure (args : Args) (env : Env) (h : setupSucceeds args env)
    (hk : env.jvmCheckpointHooks = false) :
    Event.criu_dump ∉ (checkpointJVMImpl args env).trace ∧
    Event.releaseExclusiveVMAccess ∈ (checkpointJVMImpl args env).trace ∧
    Event.closeDirFD env.openDirectory ∈ (checkpointJVMImpl args env).trace ∧
    (args.workDir = true →
      Event.closeWorkDirFD env.openWorkDir ∈ (checkpointJVMImpl args env).trace) ∧
    (env.closeWorkDirFD = 0 → env.closeDirFD = 0 →
      outcome (checkpointJVMImpl args env) = none ∧ thrown (checkpointJVMImpl args env) = []) ∧
    (args.workDir = true → env.closeWorkDirFD ≠ 0 →
      outcome (checkpointJVMImpl args env)
        = some (ExceptionClass.criuSystemCheckpointExceptionClass, env.closeWorkDirFDErrno)) ∧
    (env.closeWorkDirFD = 0 → env.closeDirFD ≠ 0 →
      outcome (checkpointJVMImpl args env)
        = some (ExceptionClass.criuSystemCheckpointExceptionClass, env.closeDirFDErrno)) := by
  obtain ⟨htr, hrun, hc, hi⟩ := run_of_setupSucceeds args env h
  have hS := (setup_isSetup args env).1
  have hF := (free_calls (setup args env).locals _ (Or.inl rfl)).1
  have hR := throwException_isRaise env (checkpointJVMImpl args env).locals
  rcases checkpoint_cases env (setup args env).locals with ⟨_, hcalls, hloc⟩ | ⟨hk2, _⟩ | ⟨hk2, _⟩
  · rw [hcalls] at htr
    rw [hloc] at hrun
    have hout : outcome (checkpointJVMImpl args env) =
        if 0 ≠ env.closeWorkDirFD then
          some (ExceptionClass.criuSystemCheckpointExceptionClass, env.closeWorkDirFDErrno)
        else if 0 ≠ env.closeDirFD then
          some (ExceptionClass.criuSystemCheckpointExceptionClass, env.closeDirFDErrno)
        else none := by
      rw [hrun, outcome_afterCloses, hc, hi]
      rfl
    refine ⟨?_, ?_, ?_, ?_, ?_, ?_, ?_⟩
    · rw [htr]
      simp [not_mem_of_isSetup hS, not_mem_of_isFree hF, not_mem_of_isRaise hR, Event.isSetup,
        Event.isFree, Event.isRaise, Event.isCriu]
    · rw [htr]
      simp
    · rw [htr]
      simp
    · intro hw
      rw [htr]
      simp [hw]
    · intro h1 h2
      have ho : outcome (checkpointJVMImpl args env) = none := by
        rw [hout]
        simp [h1, h2]
      refine ⟨ho, ?_⟩
      rw [thrown_eq, ho]
    · intro _ h1
      rw [hout]
      simp [Ne.symm h1]
    · intro h1 h2
      rw [hout]
      simp [h1, Ne.symm h2]
  · rw [hk] at hk2
    cases hk2
  · rw [hk] at hk2
    cases hk2

theorem precheckpoint_hook_failure_witness :
    setupSucceeds sampleArgsWorkDir
      { sampleEnv with jvmCheckpointHooks := false, closeDirFD := -1, closeDirFDErrno := 9 } ∧
    outcome (checkpointJVMImpl sampleArgsWorkDir
      { sampleEnv with jvmCheckpointHooks := false, closeDirFD := -1, closeDirFDErrno := 9 })
      = some (ExceptionClass.criuSystemCheckpointExceptionClass, 9) :=
  ⟨by decide,
    (precheckpoint_hook_failure sampleArgsWorkDir
      { sampleEnv with jvmCheckpointHooks := false, closeDirFD := -1, closeDirFDErrno := 9 }
      (by decide) rfl).2.2.2.2.2.2 rfl (by decide)⟩

/-- C1 as stated fails: with every step before the hook succeeding, the hook
reporting failure and both closes returning 0, no failure is recorded and
nothing is thrown. -/
theorem precheckpoint_hook_failure_counterexample :
    setupSucceeds sampleArgsWorkDir { sampleEnv with jvmCheckpointHooks := false } ∧
    ({ sampleEnv with jvmCheckpointHooks := false } : Env).jvmCheckpointHooks = false ∧
    outcome (checkpointJVMImpl sampleArgsWorkDir { sampleEnv with jvmCheckpointHooks := false })
      = none ∧
    thrown (checkpointJVMImpl sampleArgsWorkDir { sampleEnv with jvmCheckpointHooks := false })
      = [] := by
  decide

theorem isSetup_closedFD {e : Event} (h : e.isSetup = true) : e.closedFD = none := by
  cases e <;> first | rfl | simp [Event.isSetup, Event.isCriu] at h

theorem isFree_closedFD {e : Event} (h : e.isFree = true) : e.closedFD = none := by
  cases e <;> first | rfl | simp [Event.isFree] at h

theorem isRaise_closedFD {e : Event} (h : e.isRaise = true) : e.closedFD = none := by
  cases e <;> first | rfl | simp [Event.isRaise] at h

theorem filterMap_closedFD_eq_nil {t : List Event} (h : ∀ e ∈ t, e.closedFD = none) :
    t.filterMap Event.closedFD = [] := by
  induction t with
  | nil => rfl
  | cons a t ih =>
    rw [List.filterMap_cons_none (h a (List.mem_cons_self a t))]
    exact ih fun e he => h e (List.mem_cons_of_mem a he)

/-- The `close` calls of a run in which every step before the request for
exclusive VM access succeeds: line 359 on the value of `workDirFD`, then line
369 on the image-directory descriptor. -/
theorem closedFDs_of_setupSucceeds (args : Args) (env : Env) (h : setupSucceeds args env) :
    closedFDs (checkpointJVMImpl args env).trace
      = [if args.workDir then env.openWorkDir else 0, env.openDirectory] := by
  obtain ⟨htr, _, _, _⟩ := run_of_setupSucceeds args env h
  have hS := (setup_isSetup args env).1
  have hF := (free_calls (setup args env).locals _ (Or.inl rfl)).1
  have hR := throwException_isRaise env (checkpointJVMImpl args env).locals
  have hG : (checkpoint env (setup args env).locals).calls.filterMap Event.closedFD = [] := by
    rcases checkpoint_cases env (setup args env).locals with ⟨_, hc, _⟩ | ⟨_, _, hc, _⟩ |
      ⟨_, _, hc, _⟩ <;> rw [hc] <;> rfl
  unfold closedFDs
  rw [htr]
  simp only [List.filterMap_append, List.filterMap_cons, Event.closedFD, hG,
    filterMap_closedFD_eq_nil fun e he => isSetup_closedFD (hS e he),
    filterMap_closedFD_eq_nil fun e he => isFree_closedFD (hF e he),
    filterMap_closedFD_eq_nil fun e he => isRaise_closedFD (hR e he),
    List.nil_append, List.append_nil]

/-- C2 (amended): when every step up to and including the dump succeeds and
`jvmRestoreHooks` reports failure: in a run that requested a work directory the
`close` calls are exactly one on the work-directory descriptor followed by one
on the image-directory descriptor, so that each of the two descriptors (distinct,
both being open) is closed exactly once; in a run that requested no work
directory the image-directory descriptor, if it is not descriptor 0, is closed
exactly once; `close(dirFD)` at line 369 is executed exactly once.  The function
records no failure for the hook: with both closes returning 0 it records
nothing and throws nothing, and a failing close is recorded as
`RestoreException` with the `errno` of that close. -/
theorem restore_hook_failure (args : Args) (env : Env) (h : setupSucceeds args env)
    (hk : env.jvmCheckpointHooks = true) (hd : 0 ≤ env.criu_dump)
    (_hr : env.jvmRestoreHooks = false) :
    (args.workDir = true →
      closedFDs (checkpointJVMImpl args env).trace = [env.openWorkDir, env.openDirectory]) ∧
    (args.workDir = true → env.openWorkDir ≠ env.openDirectory →
      (closedFDs (checkpointJVMImpl args env).trace).count env.openDirectory = 1 ∧
      (closedFDs (checkpointJVMImpl args env).trace).count env.openWorkDir = 1) ∧
    (args.workDir = false → env.openDirectory ≠ 0 →
      (closedFDs (checkpointJVMImpl args env).trace).count env.openDirectory = 1) ∧
    (checkpointJVMImpl args env).trace.filter Event.isCloseDir
      = [Event.closeDirFD env.openDirectory] ∧
    (args.workDir = true →
      (checkpointJVMImpl args env).trace.filter Event.isCloseWorkDir
        = [Event.closeWorkDirFD env.openWorkDir]) ∧
    (env.closeWorkDirFD = 0 → env.closeDirFD = 0 →
      outcome (checkpointJVMImpl args env) = none ∧ thrown (checkpointJVMImpl args env) = []) ∧
    (args.workDir = true → env.closeWorkDirFD ≠ 0 →
      outcome (checkpointJVMImpl args env)
        = some (ExceptionClass.criuRestoreExceptionClass, env.closeWorkDirFDErrno)) ∧
    (env.closeWorkDirFD = 0 → env.closeDirFD ≠ 0 →
      outcome (checkpointJVMImpl args env)
        = some (ExceptionClass.criuRestoreExceptionClass, env.closeDirFDErrno)) := by
  obtain ⟨htr, hrun, hc, hi⟩ := run_of_setupSucceeds args env h
  have hfds := closedFDs_of_setupSucceeds args env h
  have hS := (setup_isSetup args env).1
  have hF := (free_calls (setup args env).locals _ (Or.inl rfl)).1
  have hR := throwException_isRaise env (checkpointJVMImpl args env).locals
  rcases checkpoint_cases env (setup args env).locals with ⟨hk2, _⟩ | ⟨_, hd2, _⟩ |
    ⟨_, _, hcalls, hloc⟩
  · rw [hk] at hk2
    cases hk2
  · exact absurd hd (not_le.mpr hd2)
  · rw [hcalls] at htr
    rw [hloc] at hrun
    have hout : outcome (checkpointJVMImpl args env) =
        if 0 ≠ env.closeWorkDirFD then
          some (ExceptionClass.criuRestoreExceptionClass, env.closeWorkDirFDErrno)
        else if 0 ≠ env.closeDirFD then
          some (ExceptionClass.criuRestoreExceptionClass, env.closeDirFDErrno)
        else none := by
      rw [hrun, outcome_afterCloses]
      simp only [hc]
      rfl
    refine ⟨?_, ?_, ?_, ?_, ?_, ?_, ?_, ?_⟩
    · intro hw
      rw [hfds]
      simp [hw]
    · intro hw hne
      rw [hfds]
      simp [hw, List.count_cons, hne, Ne.symm hne]
    · intro hw hne
      rw [hfds]
      simp [hw, List.count_cons, hne, Ne.symm hne]
    · rw [htr]
      simp [List.filter_append, List.filter_cons, Event.isCloseDir,
        filter_eq_nil_of_forall fun e he => isSetup_isCloseDir (hS e he),
        filter_eq_nil_of_forall fun e he => isFree_isCloseDir (hF e he),
        filter_eq_nil_of_forall fun e he => isRaise_isCloseDir (hR e he)]
    · intro hw
      rw [htr]
      simp [List.filter_append, List.filter_cons, Event.isCloseWorkDir, hw,
        filter_eq_nil_of_forall fun e he => isSetup_isCloseWorkDir (hS e he),
        filter_eq_nil_of_forall fun e he => isFree_isCloseWorkDir (hF e he),
        filter_eq_nil_of_forall fun e he => isRaise_isCloseWorkDir (hR e he)]
    · intro h1 h2
      have ho : outcome (checkpointJVMImpl args env) = none := by
        rw [hout]
        simp [h1, h2]
      refine ⟨ho, ?_⟩
      rw [thrown_eq, ho]
    · intro _ h1
      rw [hout]
      simp [Ne.symm h1]
    · intro h1 h2
      rw [hout]
      simp [h1, Ne.symm h2]

theorem restore_hook_failure_witness :
    setupSucceeds sampleArgsWorkDir
      { sampleEnv with jvmRestoreHooks := false, closeWorkDirFD := -1,
                       closeWorkDirFDErrno := 5 } ∧
    (closedFDs (checkpointJVMImpl sampleArgsWorkDir
      { sampleEnv with jvmRestoreHooks := false, closeWorkDirFD := -1,
                       closeWorkDirFDErrno := 5 }).trace).count 3 = 1 ∧
    (closedFDs (checkpointJVMImpl sampleArgsWorkDir
      { sampleEnv with jvmRestoreHooks := false, closeWorkDirFD := -1,
                       closeWorkDirFDErrno := 5 }).trace).count 4 = 1 ∧
    outcome (checkpointJVMImpl sampleArgsWorkDir
      { sampleEnv with jvmRestoreHooks := false, closeWorkDirFD := -1,
                       closeWorkDirFDErrno := 5 })
      = some (ExceptionClass.criuRestoreExceptionClass, 5) :=
  ⟨by decide,
    ((restore_hook_failure sampleArgsWorkDir
      { sampleEnv with jvmRestoreHooks := false, closeWorkDirFD := -1,
                       closeWorkDirFDErrno := 5 }
      (by decide) rfl (by decide) rfl).2.1 rfl (by decide)).1,
    ((restore_hook_failure sampleArgsWorkDir
      { sampleEnv with jvmRestoreHooks := false, closeWorkDirFD := -1,
                       closeWorkDirFDErrno := 5 }
      (by decide) rfl (by decide) rfl).2.1 rfl (by decide)).2,
    (restore_hook_failure sampleArgsWorkDir
      { sampleEnv with jvmRestoreHooks := false, closeWorkDirFD := -1,
                       closeWorkDirFDErrno := 5 }
      (by decide) rfl (by decide) rfl).2.2.2.2.2.2.1 rfl (by decide)⟩

/-- C2 as stated fails: with every step up to and including the dump succeeding,
the post-restore hook reporting failure and both closes returning 0, no failure
is recorded and nothing is thrown. -/
theorem restore_hook_failure_counterexample :
    setupSucceeds sampleArgsWorkDir { sampleEnv with jvmRestoreHooks := false } ∧
    ({ sampleEnv with jvmRestoreHooks := false } : Env).jvmCheckpointHooks = true ∧
    0 ≤ ({ sampleEnv with jvmRestoreHooks := false } : Env).criu_dump ∧
    ({ sampleEnv with jvmRestoreHooks := false } : Env).jvmRestoreHooks = false ∧
    outcome (checkpointJVMImpl sampleArgsWorkDir { sampleEnv with jvmRestoreHooks := false })
      = none ∧
    thrown (checkpointJVMImpl sampleArgsWorkDir { sampleEnv with jvmRestoreHooks := false })
      = [] := by
  decide

/-- C3 fails on the code: in a run without work directory in which every step
succeeds, `open` is never called for a work directory, yet line 359 calls
`close(workDirFD)` with `workDirFD` still 0. -/
theorem close_of_unopened_work_slot :
    sampleArgs.workDir = false ∧
    Event.criu_init_opts ∈ (checkpointJVMImpl sampleArgs sampleEnv).trace ∧
    Event.openWorkDir ∉ (checkpointJVMImpl sampleArgs sampleEnv).trace ∧
    Event.closeWorkDirFD 0 ∈ (checkpointJVMImpl sampleArgs sampleEnv).trace := by
  decide

/-- Lines 243-298 when the conversions succeed and the image directory does not
open. -/
theorem setup_of_open_failure (args : Args) (env : Env)
    (hdir : (getNativeString env.imagesDirCalls stackBuffer STRING_BUFFER_SIZE).res
      = J9_NATIVE_STRING_NO_ERROR)
    (hlog : args.logFile = true →
      (getNativeString env.logFileCalls stackBuffer STRING_BUFFER_SIZE).res
        = J9_NATIVE_STRING_NO_ERROR)
    (hwork : args.workDir = true →
      (getNativeString env.workDirCalls stackBuffer STRING_BUFFER_SIZE).res
        = J9_NATIVE_STRING_NO_ERROR)
    (hopen : env.openDirectory < 0) :
    (setup args env).target = some Label.freeWorkDir ∧
    (setup args env).locals.currentExceptionClass
      = some ExceptionClass.criuJVMCheckpointExceptionClass ∧
    (setup args env).locals.systemReturnCode = env.openDirectoryErrno ∧
    (∀ e ∈ (setup args env).calls, e = Event.internalEnterVMFromJNI ∨
      (∃ p, e = Event.getNativeString p) ∨ e = Event.openDirectory) := by
  cases hl : args.logFile <;> cases hw : args.workDir <;>
    simp only [hl, hw, true_implies] at hlog hwork <;>
    simp [setup, Step.andThen, resolveDirectory, resolveLogFile, resolveWorkDir, openDirectory,
      openWorkDir, configureCriu, hdir, hlog, hwork, hopen, hl, hw]

/-- C6: when checkpointing is allowed, the path conversions succeed and opening
the image directory fails, the failure recorded is `JVMCheckpointException`
with the `errno` of that `open`; the work directory is not opened, no CRIU
function is called, exclusive VM access is not requested and no descriptor is
closed. -/
theorem open_directory_failure (args : Args) (env : Env)
    (ha : env.isCheckpointAllowed = true)
    (hdir : (getNativeString env.imagesDirCalls stackBuffer STRING_BUFFER_SIZE).res
      = J9_NATIVE_STRING_NO_ERROR)
    (hlog : args.logFile = true →
      (getNativeString env.logFileCalls stackBuffer STRING_BUFFER_SIZE).res
        = J9_NATIVE_STRING_NO_ERROR)
    (hwork : args.workDir = true →
      (getNativeString env.workDirCalls stackBuffer STRING_BUFFER_SIZE).res
        = J9_NATIVE_STRING_NO_ERROR)
    (hopen : env.openDirectory < 0) :
    outcome (checkpointJVMImpl args env)
      = some (ExceptionClass.criuJVMCheckpointExceptionClass, env.openDirectoryErrno) ∧
    Event.openWorkDir ∉ (checkpointJVMImpl args env).trace ∧
    (∀ e ∈ (checkpointJVMImpl args env).trace, e.isCriu = false) ∧
    Event.acquireExclusiveVMAccess ∉ (checkpointJVMImpl args env).trace ∧
    (∀ e ∈ (checkpointJVMImpl args env).trace,
      e.isCloseWorkDir = false ∧ e.isCloseDir = false) := by
  obtain ⟨ht, hc, hcode, hcalls⟩ := setup_of_open_failure args env hdir hlog hwork hopen
  obtain ⟨htr, hloc⟩ := run_of_setup_some args env ha ht
  have hF := (free_calls (setup args env).locals _ (Or.inl rfl)).1
  have hR := throwException_isRaise env (checkpointJVMImpl args env).locals
  have hall : ∀ e ∈ (checkpointJVMImpl args env).trace,
      e ≠ Event.openWorkDir ∧ e.isCriu = false ∧ e ≠ Event.acquireExclusiveVMAccess ∧
      e.isCloseWorkDir = false ∧ e.isCloseDir = false := by
    intro e he
    rw [htr] at he
    simp only [cleanup, List.append_assoc, List.mem_append] at he
    rcases he with h | h | h
    · rcases hcalls e h with h | ⟨p, h⟩ | h <;> subst h <;> simp [Event.isCriu,
        Event.isCloseWorkDir, Event.isCloseDir]
    · have := hF e h
      cases e <;> first
        | (simp [Event.isCriu, Event.isCloseWorkDir, Event.isCloseDir]; done)
        | simp [Event.isFree] at this
    · have := hR e h
      cases e <;> first
        | (simp [Event.isCriu, Event.isCloseWorkDir, Event.isCloseDir]; done)
        | simp [Event.isRaise] at this
  refine ⟨?_, fun hm => (hall _ hm).1 rfl, fun e he => (hall e he).2.1,
    fun hm => (hall _ hm).2.2.1 rfl, fun e he => (hall e he).2.2.2⟩
  unfold outcome
  rw [hloc]
  simp [cleanup, hc, hcode]

theorem open_directory_failure_witness :
    outcome (checkpointJVMImpl sampleArgsWorkDir
      { sampleEnv with openDirectory := -1, openDirectoryErrno := 2 })
      = some (ExceptionClass.criuJVMCheckpointExceptionClass, 2) ∧
    Event.openWorkDir ∉ (checkpointJVMImpl sampleArgsWorkDir
      { sampleEnv with openDirectory := -1, openDirectoryErrno := 2 }).trace :=
  ⟨(open_directory_failure sampleArgsWorkDir
      { sampleEnv with openDirectory := -1, openDirectoryErrno := 2 }
      rfl (by decide) (fun _ => by decide) (fun _ => by decide) (by decide)).1,
   (open_directory_failure sampleArgsWorkDir
      { sampleEnv with openDirectory := -1, openDirectoryErrno := 2 }
      rfl (by decide) (fun _ => by decide) (fun _ => by decide) (by decide)).2.1⟩

theorem any_eq_false_of_forall {p : Event → Bool} {t : List Event}
    (h : ∀ e ∈ t, p e = false) : t.any p = false := by
  induction t with
  | nil => rfl
  | cons a t ih =>
    rw [List.any_cons, h a (List.mem_cons_self a t),
      ih fun e he => h e (List.mem_cons_of_mem a he)]
    rfl

theorem body_of_setup_none (args : Args) (env : Env) (ht : (setup args env).target = none) :
    (body args env).locals = (checkpoint env (setup args env).locals).locals := by
  unfold body
  rw [andThen_of_target_none ht]

theorem body_of_setup_some (args : Args) (env : Env) {t : Label}
    (ht : (setup args env).target = some t) : body args env = setup args env := by
  unfold body
  exact andThen_of_target_some ht

/-- C5: in every run in which checkpointing is allowed, with the locals taken
where control enters the cleanup code: a failure class recorded by then is the
final one, with its code; if none is recorded, the first `close` that is made
and fails sets the code to its `errno` and the class to `RestoreException` when
`isAfterCheckpoint` is set and to `SystemCheckpointException` otherwise, and
without a failing `close` nothing is recorded; `isAfterCheckpoint` is set
exactly when `criu_dump` was called and returned a non-negative value. -/
theorem teardown_failure_precedence (args : Args) (env : Env)
    (ha : env.isCheckpointAllowed = true) :
    (∀ c, (body args env).locals.currentExceptionClass = some c →
      outcome (checkpointJVMImpl args env)
        = some (c, (body args env).locals.systemReturnCode)) ∧
    ((body args env).locals.currentExceptionClass = none →
      outcome (checkpointJVMImpl args env) =
        if (checkpointJVMImpl args env).trace.any Event.isCloseWorkDir = true
            ∧ env.closeWorkDirFD ≠ 0 then
          some (if (body args env).locals.isAfterCheckpoint = true then
              ExceptionClass.criuRestoreExceptionClass
            else ExceptionClass.criuSystemCheckpointExceptionClass, env.closeWorkDirFDErrno)
        else if (checkpointJVMImpl args env).trace.any Event.isCloseDir = true
            ∧ env.closeDirFD ≠ 0 then
          some (if (body args env).locals.isAfterCheckpoint = true then
              ExceptionClass.criuRestoreExceptionClass
            else ExceptionClass.criuSystemCheckpointExceptionClass, env.closeDirFDErrno)
        else none) ∧
    ((body args env).locals.isAfterCheckpoint = true ↔
      Event.criu_dump ∈ (checkpointJVMImpl args env).trace ∧ 0 ≤ env.criu_dump) := by
  have hS := (setup_isSetup args env).1
  have hi := (setup_isSetup args env).2.1
  have hR := throwException_isRaise env (checkpointJVMImpl args env).locals
  have hRd : Event.criu_dump ∉ throwException env (checkpointJVMImpl args env).locals :=
    not_mem_of_isRaise hR rfl
  have hSd : Event.criu_dump ∉ (setup args env).calls := not_mem_of_isSetup hS rfl
  have hSw := any_eq_false_of_forall fun e he => isSetup_isCloseWorkDir (hS e he)
  have hSc := any_eq_false_of_forall fun e he => isSetup_isCloseDir (hS e he)
  have hRw := any_eq_false_of_forall fun e he => isRaise_isCloseWorkDir (hR e he)
  have hRc := any_eq_false_of_forall fun e he => isRaise_isCloseDir (hR e he)
  cases ht : (setup args env).target with
  | none =>
    obtain ⟨htr, hloc⟩ := run_of_setup_none args env ha ht
    have hrun : checkpointJVMImpl args env =
        ⟨afterCloseDirFD env (afterCloseWorkDirFD env
          (checkpoint env (setup args env).locals).locals),
          (checkpointJVMImpl args env).trace⟩ := by
      rw [← hloc]
    have hF := (free_calls (setup args env).locals _ (Or.inl rfl)).1
    have hFd : Event.criu_dump ∉ (atFreeWorkDir (setup args env).locals).2 :=
      not_mem_of_isFree hF rfl
    have hw : (checkpointJVMImpl args env).trace.any Event.isCloseWorkDir = true := by
      rw [htr]
      simp [Event.isCloseWorkDir]
    have hc : (checkpointJVMImpl args env).trace.any Event.isCloseDir = true := by
      rw [htr]
      simp [Event.isCloseDir]
    rw [body_of_setup_none args env ht, hw, hc]
    refine ⟨?_, ?_, ?_⟩
    · intro c hcc
      rw [hrun, outcome_afterCloses, hcc]
    · intro hcc
      rw [hrun, outcome_afterCloses, hcc]
      by_cases h1 : env.closeWorkDirFD = 0
      · by_cases h2 : env.closeDirFD = 0
        · simp [h1, h2]
        · simp [h1, h2, Ne.symm h2, closeFailureClass]
      · simp [h1, Ne.symm h1, closeFailureClass]
    · rw [htr]
      rcases checkpoint_cases env (setup args env).locals with ⟨_, hcalls, hl⟩ |
        ⟨_, hd, hcalls, hl⟩ | ⟨_, hd, hcalls, hl⟩
      · rw [hcalls, hl, hi]
        simp [hSd, hFd, hRd]
      · rw [hcalls, hl]
        simp [hi, not_le.mpr hd]
      · rw [hcalls, hl]
        simp [hd]
  | some t =>
    obtain ⟨htr, hloc⟩ := run_of_setup_some args env ha ht
    have hne : t ≠ Label.releaseExclusive := by
      intro h
      exact (setup_isSetup args env).2.2 (by rw [ht, h])
    rw [body_of_setup_some args env ht]
    have hout : outcome (checkpointJVMImpl args env) =
        (cleanup env t (setup args env).locals).1.currentExceptionClass.map fun c =>
          (c, (cleanup env t (setup args env).locals).1.systemReturnCode) := by
      unfold outcome
      rw [hloc]
    cases t with
    | releaseExclusive => exact absurd rfl hne
    | closeWorkDirFD =>
      have hF := (free_calls (setup args env).locals _ (Or.inl rfl)).1
      have hFd : Event.criu_dump ∉ (atFreeWorkDir (setup args env).locals).2 :=
        not_mem_of_isFree hF rfl
      have hrun : checkpointJVMImpl args env =
          ⟨afterCloseDirFD env (afterCloseWorkDirFD env (setup args env).locals),
            (checkpointJVMImpl args env).trace⟩ := by
        have h2 : (checkpointJVMImpl args env).locals
            = afterCloseDirFD env (afterCloseWorkDirFD env (setup args env).locals) := hloc
        rw [← h2]
      simp only [cleanup, atCloseWorkDirFD_calls] at htr
      have hw : (checkpointJVMImpl args env).trace.any Event.isCloseWorkDir = true := by
        rw [htr]
        simp [Event.isCloseWorkDir]
      have hc : (checkpointJVMImpl args env).trace.any Event.isCloseDir = true := by
        rw [htr]
        simp [Event.isCloseDir]
      rw [hw, hc]
      refine ⟨?_, ?_, ?_⟩
      · intro c hcc
        rw [hrun, outcome_afterCloses, hcc]
      · intro hcc
        rw [hrun, outcome_afterCloses, hcc]
        by_cases h1 : env.closeWorkDirFD = 0
        · by_cases h2 : env.closeDirFD = 0
          · simp [h1, h2]
          · simp [h1, h2, Ne.symm h2, closeFailureClass]
        · simp [h1, Ne.symm h1, closeFailureClass]
      · rw [htr, hi]
        simp [hSd, hFd, hRd]
    | closeDirFD =>
      have hF := (free_calls (setup args env).locals _ (Or.inl rfl)).1
      have hFd : Event.criu_dump ∉ (atFreeWorkDir (setup args env).locals).2 :=
        not_mem_of_isFree hF rfl
      have hFw := any_eq_false_of_forall fun e he => isFree_isCloseWorkDir (hF e he)
      simp only [cleanup, atCloseDirFD_calls] at htr
      simp only [cleanup, atCloseDirFD_locals] at hout
      have hw : (checkpointJVMImpl args env).trace.any Event.isCloseWorkDir = false := by
        rw [htr]
        simp only [List.any_append, List.any_cons, hSw, hFw, hRw]
        rfl
      have hc : (checkpointJVMImpl args env).trace.any Event.isCloseDir = true := by
        rw [htr]
        simp [Event.isCloseDir]
      have ho := afterCloseDirFD_outcome env (setup args env).locals
      rw [Prod.ext_iff] at ho
      obtain ⟨ho1, ho2⟩ := ho
      simp only at ho1 ho2
      rw [hw, hc, hout, ho1, ho2]
      refine ⟨?_, ?_, ?_⟩
      · intro c hcc
        simp [hcc]
      · intro hcc
        by_cases h2 : env.closeDirFD = 0
        · simp [hcc, h2]
        · simp [hcc, h2, Ne.symm h2, closeFailureClass]
      · rw [htr, hi]
        simp [hSd, hFd, hRd]
    | freeWorkDir =>
      have hF := (free_calls (setup args env).locals _ (Or.inl rfl)).1
      have hFd : Event.criu_dump ∉ (atFreeWorkDir (setup args env).locals).2 :=
        not_mem_of_isFree hF rfl
      have hFw := any_eq_false_of_forall fun e he => isFree_isCloseWorkDir (hF e he)
      have hFc := any_eq_false_of_forall fun e he => isFree_isCloseDir (hF e he)
      simp only [cleanup] at htr
      simp only [cleanup, atFreeWorkDir_locals] at hout
      have hw : (checkpointJVMImpl args env).trace.any Event.isCloseWorkDir = false := by
        rw [htr]
        simp only [List.any_append, hSw, hFw, hRw]
        rfl
      have hc : (checkpointJVMImpl args env).trace.any Event.isCloseDir = false := by
        rw [htr]
        simp only [List.any_append, hSc, hFc, hRc]
        rfl
      rw [hw, hc, hout]
      refine ⟨?_, ?_, ?_⟩
      · intro c hcc
        simp [hcc]
      · intro hcc
        simp [hcc]
      · rw [htr, hi]
        simp [hSd, hFd, hRd]
    | freeLog =>
      have hF := (free_calls (setup args env).locals _ (Or.inr (Or.inl rfl))).1
      have hFd : Event.criu_dump ∉ (atFreeLog (setup args env).locals).2 :=
        not_mem_of_isFree hF rfl
      have hFw := any_eq_false_of_forall fun e he => isFree_isCloseWorkDir (hF e he)
      have hFc := any_eq_false_of_forall fun e he => isFree_isCloseDir (hF e he)
      simp only [cleanup] at htr
      simp only [cleanup, atFreeLog_locals] at hout
      have hw : (checkpointJVMImpl args env).trace.any Event.isCloseWorkDir = false := by
        rw [htr]
        simp only [List.any_append, hSw, hFw, hRw]
        rfl
      have hc : (checkpointJVMImpl args env).trace.any Event.isCloseDir = false := by
        rw [htr]
        simp only [List.any_append, hSc, hFc, hRc]
        rfl
      rw [hw, hc, hout]
      refine ⟨?_, ?_, ?_⟩
      · intro c hcc
        simp [hcc]
      · intro hcc
        simp [hcc]
      · rw [htr, hi]
        simp [hSd, hFd, hRd]
    | freeDir =>
      have hF := (free_calls (setup args env).locals _ (Or.inr (Or.inr rfl))).1
      have hFd : Event.criu_dump ∉ (atFreeDir (setup args env).locals).2 :=
        not_mem_of_isFree hF rfl
      have hFw := any_eq_false_of_forall fun e he => isFree_isCloseWorkDir (hF e he)
      have hFc := any_eq_false_of_forall fun e he => isFree_isCloseDir (hF e he)
      simp only [cleanup] at htr
      simp only [cleanup, atFreeDir_locals] at hout
      have hw : (checkpointJVMImpl args env).trace.any Event.isCloseWorkDir = false := by
        rw [htr]
        simp only [List.any_append, hSw, hFw, hRw]
        rfl
      have hc : (checkpointJVMImpl args env).trace.any Event.isCloseDir = false := by
        rw [htr]
        simp only [List.any_append, hSc, hFc, hRc]
        rfl
      rw [hw, hc, hout]
      refine ⟨?_, ?_, ?_⟩
      · intro c hcc
        simp [hcc]
      · intro hcc
        simp [hcc]
      · rw [htr, hi]
        simp [hSd, hFd, hRd]

theorem teardown_failure_precedence_witness :
    outcome (checkpointJVMImpl sampleArgsWorkDir
      { sampleEnv with criu_dump := -7, closeWorkDirFD := -1, closeWorkDirFDErrno := 9 })
      = some (ExceptionClass.criuSystemCheckpointExceptionClass,
          (body sampleArgsWorkDir
            { sampleEnv with criu_dump := -7, closeWorkDirFD := -1,
                             closeWorkDirFDErrno := 9 }).locals.systemReturnCode) :=
  (teardown_failure_precedence sampleArgsWorkDir
    { sampleEnv with criu_dump := -7, closeWorkDirFD := -1, closeWorkDirFDErrno := 9 } rfl).1
    ExceptionClass.criuSystemCheckpointExceptionClass (by decide)

/-! ### `getNativeString` -/

theorem wrapIDATA_of_lt (x : Int) (h0 : 0 ≤ x) (h1 : x < 9223372036854775808) :
    wrapIDATA x = x := by
  unfold wrapIDATA
  omega

theorem store_take (buf : Buffer) (w text : List UInt8) (h : w = text ∨ w = text ++ [0]) :
    (store buf w).take text.length = text.map some := by
  rcases h with rfl | rfl
  · simp [store]
  · simp [store, List.take_append_eq_append_take]

theorem store_nul (buf : Buffer) (w text : List UInt8) (h : w = text ∨ w = text ++ [0])
    (hlen : text.length < buf.length) :
    (store (buf.set text.length (some 0)) w)[text.length]? = some (some 0) := by
  have hmap : ∀ l : List UInt8, (l.map some).length ≤ l.length := fun l => by simp
  rcases h with rfl | rfl
  · unfold store
    rw [List.getElem?_append_right (hmap _), List.length_map, Nat.sub_self,
      List.getElem?_drop, Nat.add_zero, List.getElem?_set_self hlen]
  · unfold store
    rw [List.map_append, List.append_assoc, List.getElem?_append_right (hmap _),
      List.length_map, Nat.sub_self]
    simp

theorem store_length (buf : Buffer) (w text : List UInt8) (h : w = text ∨ w = text ++ [0])
    (hlen : text.length < buf.length) :
    (store buf w).length = buf.length := by
  rcases h with rfl | rfl
  · simp [store]; omega
  · simp [store]; omega

/-- A return value other than `J9_NATIVE_STRING_NO_ERROR` leaves `*nativeString`
as the caller set it. -/
theorem getNativeString_failure_keeps_pointer (ext : StringCalls) (callerBuf : Buffer)
    (nativeStringBufSize : Int)
    (h : (getNativeString ext callerBuf nativeStringBufSize).res ≠ J9_NATIVE_STRING_NO_ERROR) :
    (getNativeString ext callerBuf nativeStringBufSize).nativeString = Ptr.own := by
  revert h
  unfold getNativeString
  cases ext.copyStringToUTF8WithMemAlloc with
  | none => simp [getNativeString.free]
  | some p =>
    obtain ⟨mutf8, onHeap⟩ := p
    simp only
    split_ifs <;> simp [getNativeString.free, J9_NATIVE_STRING_NO_ERROR,
      J9_NATIVE_STRING_FAIL_TO_CONVERT, J9_NATIVE_STRING_OUT_OF_MEMORY]

theorem getNativeString_stack (ext : StringCalls) (callerBuf : Buffer) (B : Int)
    (mutf8 : List UInt8) (onHeap : Bool) (n : Nat)
    (hcopy : ext.copyStringToUTF8WithMemAlloc = some (mutf8, onHeap))
    (hsize : (ext.omrstr_convert mutf8 0).1 = (n : Int))
    (hn : n < 2147483648)
    (hret : 0 ≤ (ext.omrstr_convert mutf8 ((n : Int) + 1)).1)
    (hB : (n : Int) + 1 ≤ B) :
    getNativeString ext callerBuf B =
      { res := J9_NATIVE_STRING_NO_ERROR, nativeString := Ptr.own,
        contents := store (callerBuf.set n (some 0)) (ext.omrstr_convert mutf8 ((n : Int) + 1)).2,
        callerBuf := store (callerBuf.set n (some 0)) (ext.omrstr_convert mutf8 ((n : Int) + 1)).2,
        mem := if onHeap then [MemEvent.freeMutf8 Ptr.heap] else [] } := by
  have hwrap : wrapIDATA ((n : Int) + 1) = (n : Int) + 1 := wrapIDATA_of_lt _ (by omega) (by omega)
  have h1 : ¬ ((n : Int) < 0) := by omega
  have h2 : ¬ ((n : Int) + 1 > B) := by omega
  have h3 : ¬ ((ext.omrstr_convert mutf8 ((n : Int) + 1)).1 < 0) := by omega
  unfold getNativeString
  simp only [hcopy, hsize, hwrap, h1, h2, h3, if_false, decide_False, Bool.false_and,
    Bool.false_eq_true, add_sub_cancel_right, Int.toNat_ofNat, getNativeString.free]
  cases onHeap <;> simp

theorem getNativeString_heap (ext : StringCalls) (callerBuf : Buffer) (B : Int)
    (mutf8 : List UInt8) (onHeap : Bool) (n : Nat)
    (hcopy : ext.copyStringToUTF8WithMemAlloc = some (mutf8, onHeap))
    (hsize : (ext.omrstr_convert mutf8 0).1 = (n : Int))
    (hn : n < 2147483648)
    (hret : 0 ≤ (ext.omrstr_convert mutf8 ((n : Int) + 1)).1)
    (hB : B < (n : Int) + 1)
    (halloc : ext.j9mem_allocate_memory ((n : Int) + 1) = true) :
    getNativeString ext callerBuf B =
      { res := J9_NATIVE_STRING_NO_ERROR, nativeString := Ptr.heap,
        contents := store ((List.replicate (n + 1) none).set n (some 0))
          (ext.omrstr_convert mutf8 ((n : Int) + 1)).2,
        callerBuf := callerBuf,
        mem := [MemEvent.allocate ((n : Int) + 1) Ptr.heap]
          ++ if onHeap then [MemEvent.freeMutf8 Ptr.heap] else [] } := by
  have hwrap : wrapIDATA ((n : Int) + 1) = (n : Int) + 1 := wrapIDATA_of_lt _ (by omega) (by omega)
  have h1 : ¬ ((n : Int) < 0) := by omega
  have h2 : ((n : Int) + 1 > B) := by omega
  have h3 : ¬ ((ext.omrstr_convert mutf8 ((n : Int) + 1)).1 < 0) := by omega
  have h4 : ((n : Int) + 1).toNat = n + 1 := by omega
  unfold getNativeString
  simp only [hcopy, hsize, hwrap, h1, h2, h3, h4, halloc, if_false, if_true, decide_True,
    Bool.true_and, Bool.not_true, Bool.false_eq_true, add_sub_cancel_right, Int.toNat_ofNat,
    getNativeString.free]
  cases onHeap <;> simp [J9_NATIVE_STRING_NO_ERROR]

theorem stackBuffer_length : stackBuffer.length = 256 :=
  List.length_replicate 256 none

theorem getNativeString_copy_fails (ext : StringCalls) (callerBuf : Buffer) (B : Int)
    (hcopy : ext.copyStringToUTF8WithMemAlloc = none) :
    (getNativeString ext callerBuf B).res = J9_NATIVE_STRING_OUT_OF_MEMORY := by
  unfold getNativeString
  simp [hcopy, getNativeString.free]

theorem getNativeString_allocate_fails (ext : StringCalls) (callerBuf : Buffer) (B : Int)
    (mutf8 : List UInt8) (onHeap : Bool) (n : Nat)
    (hcopy : ext.copyStringToUTF8WithMemAlloc = some (mutf8, onHeap))
    (hsize : (ext.omrstr_convert mutf8 0).1 = (n : Int))
    (hn : n < 2147483648)
    (hB : B < (n : Int) + 1)
    (halloc : ext.j9mem_allocate_memory ((n : Int) + 1) = false) :
    (getNativeString ext callerBuf B).res = J9_NATIVE_STRING_OUT_OF_MEMORY := by
  have hwrap : wrapIDATA ((n : Int) + 1) = (n : Int) + 1 := wrapIDATA_of_lt _ (by omega) (by omega)
  have h1 : ¬ ((n : Int) < 0) := by omega
  have h2 : ((n : Int) + 1 > B) := by omega
  unfold getNativeString
  simp only [hcopy, hsize, hwrap, h1, h2, halloc, if_false, if_true, decide_True,
    Bool.true_and, Bool.not_false, getNativeString.free]
  cases onHeap <;> simp [J9_NATIVE_STRING_NO_ERROR, J9_NATIVE_STRING_OUT_OF_MEMORY]

/-- C10 (amended): a return value other than `J9_NATIVE_STRING_NO_ERROR` leaves
`*nativeString` unchanged; when the MUTF8 copy is not obtained, or the
zero-length conversion reports `n` with `n + 1 > nativeStringBufSize` and the
allocation fails, the function returns `J9_NATIVE_STRING_OUT_OF_MEMORY`; and
when the MUTF8 copy is obtained, the zero-length
conversion reports `n`, the conversion into `n + 1` bytes succeeds and stores
the `n` bytes of the converted text (with or without a NUL after them), the
caller's buffer has `nativeStringBufSize` bytes and, in case
`n + 1 > nativeStringBufSize`, the allocation succeeds, then the function
returns `J9_NATIVE_STRING_NO_ERROR` and: if `n + 1 <= nativeStringBufSize` the
result is the caller's buffer holding the text and NUL at index `n`, with no
allocation for the destination; otherwise it is a heap block of `n + 1` bytes,
allocated by the one allocation made, holding the text and NUL at index `n`. -/
theorem getNativeString_contract (ext : StringCalls) (callerBuf : Buffer)
    (nativeStringBufSize : Int) :
    ((getNativeString ext callerBuf nativeStringBufSize).res ≠ J9_NATIVE_STRING_NO_ERROR →
      (getNativeString ext callerBuf nativeStringBufSize).nativeString = Ptr.own) ∧
    (ext.copyStringToUTF8WithMemAlloc = none →
      (getNativeString ext callerBuf nativeStringBufSize).res
        = J9_NATIVE_STRING_OUT_OF_MEMORY) ∧
    (∀ (mutf8 : List UInt8) (onHeap : Bool) (n : Nat),
      ext.copyStringToUTF8WithMemAlloc = some (mutf8, onHeap) →
      (ext.omrstr_convert mutf8 0).1 = (n : Int) →
      n < 2147483648 →
      nativeStringBufSize < (n : Int) + 1 →
      ext.j9mem_allocate_memory ((n : Int) + 1) = false →
      (getNativeString ext callerBuf nativeStringBufSize).res
        = J9_NATIVE_STRING_OUT_OF_MEMORY) ∧
    ∀ (mutf8 : List UInt8) (onHeap : Bool) (n : Nat) (text : List UInt8),
      ext.copyStringToUTF8WithMemAlloc = some (mutf8, onHeap) →
      (ext.omrstr_convert mutf8 0).1 = (n : Int) →
      n < 2147483648 →
      0 ≤ (ext.omrstr_convert mutf8 ((n : Int) + 1)).1 →
      ((ext.omrstr_convert mutf8 ((n : Int) + 1)).2 = text ∨
        (ext.omrstr_convert mutf8 ((n : Int) + 1)).2 = text ++ [0]) →
      text.length = n →
      callerBuf.length = nativeStringBufSize.toNat →
      (nativeStringBufSize < (n : Int) + 1 →
        ext.j9mem_allocate_memory ((n : Int) + 1) = true) →
      (getNativeString ext callerBuf nativeStringBufSize).res = J9_NATIVE_STRING_NO_ERROR ∧
      ((n : Int) + 1 ≤ nativeStringBufSize →
        (getNativeString ext callerBuf nativeStringBufSize).nativeString = Ptr.own ∧
        (getNativeString ext callerBuf nativeStringBufSize).contents.take n
          = text.map some ∧
        (getNativeString ext callerBuf nativeStringBufSize).contents[n]? = some (some 0) ∧
        (getNativeString ext callerBuf nativeStringBufSize).mem.filter MemEvent.isAllocate
          = []) ∧
      (nativeStringBufSize < (n : Int) + 1 →
        (getNativeString ext callerBuf nativeStringBufSize).nativeString = Ptr.heap ∧
        (getNativeString ext callerBuf nativeStringBufSize).contents.length = n + 1 ∧
        (getNativeString ext callerBuf nativeStringBufSize).contents.take n
          = text.map some ∧
        (getNativeString ext callerBuf nativeStringBufSize).contents[n]? = some (some 0) ∧
        (getNativeString ext callerBuf nativeStringBufSize).mem.filter MemEvent.isAllocate
          = [MemEvent.allocate ((n : Int) + 1) Ptr.heap]) := by
  refine ⟨getNativeString_failure_keeps_pointer ext callerBuf nativeStringBufSize,
    getNativeString_copy_fails ext callerBuf nativeStringBufSize,
    getNativeString_allocate_fails ext callerBuf nativeStringBufSize, ?_⟩
  intro mutf8 onHeap n text hcopy hsize hn hret hstore htext hbuf halloc
  subst htext
  by_cases hB : (text.length : Int) + 1 ≤ nativeStringBufSize
  · have hrun := getNativeString_stack ext callerBuf nativeStringBufSize mutf8 onHeap
      text.length hcopy hsize hn hret hB
    have hlen : text.length < callerBuf.length := by
      rw [hbuf]
      omega
    have hlen2 : text.length < (callerBuf.set text.length (some 0)).length := by
      rw [List.length_set]
      exact hlen
    rw [hrun]
    refine ⟨rfl, fun _ => ⟨rfl, store_take _ _ _ hstore, store_nul _ _ _ hstore hlen, ?_⟩,
      fun h => absurd hB (not_le.mpr h)⟩
    cases onHeap <;> simp [MemEvent.isAllocate]
  · have hB2 : nativeStringBufSize < (text.length : Int) + 1 := not_le.mp hB
    have hrun := getNativeString_heap ext callerBuf nativeStringBufSize mutf8 onHeap
      text.length hcopy hsize hn hret hB2 (halloc hB2)
    have hlen : text.length < (List.replicate (text.length + 1) (none : Option UInt8)).length := by
      simp
    have hlen2 : text.length
        < ((List.replicate (text.length + 1) (none : Option UInt8)).set text.length
            (some 0)).length := by
      rw [List.length_set]
      exact hlen
    rw [hrun]
    refine ⟨rfl, fun h => absurd h hB, fun _ => ⟨rfl, ?_, store_take _ _ _ hstore,
      store_nul _ _ _ hstore hlen, ?_⟩⟩
    · rw [store_length _ _ _ hstore hlen2]
      simp
    · cases onHeap <;> simp [MemEvent.isAllocate]

theorem getNativeString_contract_witness :
    (getNativeString sampleStringCalls stackBuffer 256).res = J9_NATIVE_STRING_NO_ERROR ∧
    (getNativeString sampleStringCalls (List.replicate 2 none) 2).nativeString = Ptr.heap ∧
    (getNativeString sampleStringCalls (List.replicate 2 none) 2).contents.length = 2 + 1 ∧
    (getNativeString sampleStringCallsNoMemory (List.replicate 2 none) 2).res
      = J9_NATIVE_STRING_OUT_OF_MEMORY :=
  ⟨((getNativeString_contract sampleStringCalls stackBuffer 256).2.2.2 [47, 116] false 2
      [47, 116] rfl rfl (by decide) (by decide) (Or.inl rfl) rfl stackBuffer_length
      (fun h => absurd h (by decide))).1,
    (((getNativeString_contract sampleStringCalls (List.replicate 2 none) 2).2.2.2 [47, 116]
      false 2 [47, 116] rfl rfl (by decide) (by decide) (Or.inl rfl) rfl (by decide)
      (fun _ => rfl)).2.2 (by decide)).1,
    (((getNativeString_contract sampleStringCalls (List.replicate 2 none) 2).2.2.2 [47, 116]
      false 2 [47, 116] rfl rfl (by decide) (by decide) (Or.inl rfl) rfl (by decide)
      (fun _ => rfl)).2.2 (by decide)).2.1,
    (getNativeString_contract sampleStringCallsNoMemory (List.replicate 2 none) 2).2.2.1
      [47, 116] false 2 rfl rfl (by decide) (by decide) rfl⟩

/-- C10 as stated fails: the path `/t` converts (the zero-length conversion
reports 2, the conversion into 3 bytes stores the 2 bytes), the caller's buffer
has 2 bytes, and `j9mem_allocate_memory` returns `NULL`: the function returns
`J9_NATIVE_STRING_OUT_OF_MEMORY`, not a heap block of 3 bytes. -/
theorem getNativeString_contract_counterexample :
    (sampleStringCallsNoMemory.omrstr_convert [47, 116] 0).1 = 2 ∧
    sampleStringCallsNoMemory.omrstr_convert [47, 116] 3 = (2, [47, 116]) ∧
    (getNativeString sampleStringCallsNoMemory (List.replicate 2 none) 2).res
      = J9_NATIVE_STRING_OUT_OF_MEMORY ∧
    (getNativeString sampleStringCallsNoMemory (List.replicate 2 none) 2).nativeString
      = Ptr.own := by
  decide

/-! ### Runs that reach `criu_dump` -/

theorem getNativeString_res_cases (ext : StringCalls) (callerBuf : Buffer)
    (nativeStringBufSize : Int) :
    (getNativeString ext callerBuf nativeStringBufSize).res = J9_NATIVE_STRING_NO_ERROR ∨
    (getNativeString ext callerBuf nativeStringBufSize).res = J9_NATIVE_STRING_OUT_OF_MEMORY ∨
    (getNativeString ext callerBuf nativeStringBufSize).res
      = J9_NATIVE_STRING_FAIL_TO_CONVERT := by
  unfold getNativeString
  cases ext.copyStringToUTF8WithMemAlloc with
  | none => simp [getNativeString.free]
  | some p =>
    obtain ⟨mutf8, onHeap⟩ := p
    simp only
    split_ifs <;> simp [getNativeString.free, J9_NATIVE_STRING_NO_ERROR,
      J9_NATIVE_STRING_FAIL_TO_CONVERT, J9_NATIVE_STRING_OUT_OF_MEMORY]

theorem resolveDirectory_target_none (env : Env) (l : Locals)
    (h : (resolveDirectory env l).target = none) :
    (getNativeString env.imagesDirCalls stackBuffer STRING_BUFFER_SIZE).res
      = J9_NATIVE_STRING_NO_ERROR := by
  rcases getNativeString_res_cases env.imagesDirCalls stackBuffer STRING_BUFFER_SIZE
    with h0 | h0 | h0
  · exact h0
  · simp [resolveDirectory, h0, J9_NATIVE_STRING_NO_ERROR, J9_NATIVE_STRING_OUT_OF_MEMORY] at h
  · simp [resolveDirectory, h0, J9_NATIVE_STRING_NO_ERROR, J9_NATIVE_STRING_OUT_OF_MEMORY,
      J9_NATIVE_STRING_FAIL_TO_CONVERT] at h

theorem resolveLogFile_target_none (args : Args) (env : Env) (l : Locals)
    (h : (resolveLogFile args env l).target = none) (hl : args.logFile = true) :
    (getNativeString env.logFileCalls stackBuffer STRING_BUFFER_SIZE).res
      = J9_NATIVE_STRING_NO_ERROR := by
  rcases getNativeString_res_cases env.logFileCalls stackBuffer STRING_BUFFER_SIZE
    with h0 | h0 | h0
  · exact h0
  · simp [resolveLogFile, hl, h0, J9_NATIVE_STRING_NO_ERROR,
      J9_NATIVE_STRING_OUT_OF_MEMORY] at h
  · simp [resolveLogFile, hl, h0, J9_NATIVE_STRING_NO_ERROR, J9_NATIVE_STRING_OUT_OF_MEMORY,
      J9_NATIVE_STRING_FAIL_TO_CONVERT] at h

theorem resolveWorkDir_target_none (args : Args) (env : Env) (l : Locals)
    (h : (resolveWorkDir args env l).target = none) (hw : args.workDir = true) :
    (getNativeString env.workDirCalls stackBuffer STRING_BUFFER_SIZE).res
      = J9_NATIVE_STRING_NO_ERROR := by
  rcases getNativeString_res_cases env.workDirCalls stackBuffer STRING_BUFFER_SIZE
    with h0 | h0 | h0
  · exact h0
  · simp [resolveWorkDir, hw, h0, J9_NATIVE_STRING_NO_ERROR,
      J9_NATIVE_STRING_OUT_OF_MEMORY] at h
  · simp [resolveWorkDir, hw, h0, J9_NATIVE_STRING_NO_ERROR, J9_NATIVE_STRING_OUT_OF_MEMORY,
      J9_NATIVE_STRING_FAIL_TO_CONVERT] at h

theorem openDirectory_target_none (env : Env) (l : Locals)
    (h : (openDirectory env l).target = none) : 0 ≤ env.openDirectory := by
  by_cases h0 : env.openDirectory < 0
  · simp [openDirectory, h0] at h
  · exact not_lt.mp h0

theorem openWorkDir_target_none (args : Args) (env : Env) (l : Locals)
    (h : (openWorkDir args env l).target = none) (hw : args.workDir = true) :
    0 ≤ env.openWorkDir := by
  by_cases h0 : env.openWorkDir < 0
  · simp [openWorkDir, hw, h0] at h
  · exact not_lt.mp h0

/-- Lines 243-334 fall through to line 336 only when every step succeeded. -/
theorem setupSucceeds_of_target_none (args : Args) (env : Env)
    (ha : env.isCheckpointAllowed = true) (h : (setup args env).target = none) :
    setupSucceeds args env := by
  unfold setup at h
  obtain ⟨h5, g6, -, -⟩ := andThen_none_elim h
  obtain ⟨h4, g5, -, -⟩ := andThen_none_elim h5
  obtain ⟨h3, g4, -, -⟩ := andThen_none_elim h4
  obtain ⟨h2, g3, -, -⟩ := andThen_none_elim h3
  obtain ⟨h1, g2, -, -⟩ := andThen_none_elim h2
  exact ⟨ha, resolveDirectory_target_none env _ h1,
    resolveLogFile_target_none args env _ g2,
    resolveWorkDir_target_none args env _ g3,
    openDirectory_target_none env _ g4,
    openWorkDir_target_none args env _ g5,
    (configureCriu_target_none args env _ g6).1⟩

theorem criu_dump_not_mem_cleanup (env : Env) (t : Label) (l : Locals) :
    Event.criu_dump ∉ (cleanup env t l).2 := by
  have h1 : Event.criu_dump ∉ (atFreeWorkDir l).2 :=
    not_mem_of_isFree (free_calls l _ (Or.inl rfl)).1 rfl
  have h2 : Event.criu_dump ∉ (atFreeLog l).2 :=
    not_mem_of_isFree (free_calls l _ (Or.inr (Or.inl rfl))).1 rfl
  have h3 : Event.criu_dump ∉ (atFreeDir l).2 :=
    not_mem_of_isFree (free_calls l _ (Or.inr (Or.inr rfl))).1 rfl
  cases t <;>
    simp [cleanup, atReleaseExclusive_calls, atCloseWorkDirFD_calls, atCloseDirFD_calls, h1,
      h2, h3]

/-- A run calls `criu_dump` only when checkpointing is allowed, every step before
the request for exclusive VM access succeeded and the pre-checkpoint hook
reported success. -/
theorem setupSucceeds_of_criu_dump_mem (args : Args) (env : Env)
    (h : Event.criu_dump ∈ (checkpointJVMImpl args env).trace) :
    setupSucceeds args env ∧ env.jvmCheckpointHooks = true := by
  cases ha : env.isCheckpointAllowed with
  | false =>
    rw [run_not_allowed args env ha] at h
    cases h
  | true =>
    have hS := (setup_isSetup args env).1
    have hSd : Event.criu_dump ∉ (setup args env).calls := not_mem_of_isSetup hS rfl
    have hRd : Event.criu_dump ∉ throwException env (checkpointJVMImpl args env).locals :=
      not_mem_of_isRaise (throwException_isRaise env _) rfl
    cases ht : (setup args env).target with
    | some t =>
      obtain ⟨htr, _⟩ := run_of_setup_some args env ha ht
      rw [htr] at h
      simp [hSd, hRd, criu_dump_not_mem_cleanup] at h
    | none =>
      refine ⟨setupSucceeds_of_target_none args env ha ht, ?_⟩
      obtain ⟨htr, _⟩ := run_of_setup_none args env ha ht
      have hFd : Event.criu_dump ∉ (atFreeWorkDir (setup args env).locals).2 :=
        not_mem_of_isFree (free_calls _ _ (Or.inl rfl)).1 rfl
      rcases checkpoint_cases env (setup args env).locals with ⟨_, hcalls, _⟩ | ⟨hk, _⟩ |
        ⟨hk, _⟩
      · rw [htr, hcalls] at h
        simp [hSd, hRd, hFd] at h
      · exact hk
      · exact hk

/-- C4: in every run in which `criu_dump` is called and returns a negative
value, exclusive VM access is released exactly once, `close` is called on the
image-directory descriptor and, when a work directory was requested, on the
work-directory descriptor, `jvmRestoreHooks` is not called, and the failure
recorded is `SystemCheckpointException` with the value `criu_dump` returned,
whatever the closes return; when building the exception object goes through,
that exception is thrown with that value cast to `jint`. -/
theorem dump_failure (args : Args) (env : Env)
    (hcall : Event.criu_dump ∈ (checkpointJVMImpl args env).trace)
    (hd : env.criu_dump < 0) :
    (checkpointJVMImpl args env).trace.count Event.releaseExclusiveVMAccess = 1 ∧
    Event.closeDirFD env.openDirectory ∈ (checkpointJVMImpl args env).trace ∧
    (args.workDir = true →
      Event.closeWorkDirFD env.openWorkDir ∈ (checkpointJVMImpl args env).trace) ∧
    Event.jvmRestoreHooks ∉ (checkpointJVMImpl args env).trace ∧
    outcome (checkpointJVMImpl args env)
      = some (ExceptionClass.criuSystemCheckpointExceptionClass, env.criu_dump) ∧
    (env.exceptionCheck = false → env.newObject = true →
      thrown (checkpointJVMImpl args env)
        = [(ExceptionClass.criuSystemCheckpointExceptionClass, toJint env.criu_dump)]) := by
  obtain ⟨h, hk⟩ := setupSucceeds_of_criu_dump_mem args env hcall
  obtain ⟨htr, hrun, hc, hi⟩ := run_of_setupSucceeds args env h
  have hS := (setup_isSetup args env).1
  have hF := (free_calls (setup args env).locals _ (Or.inl rfl)).1
  have hR := throwException_isRaise env (checkpointJVMImpl args env).locals
  rcases checkpoint_cases env (setup args env).locals with ⟨hk2, _⟩ | ⟨_, _, hcalls, hloc⟩ |
    ⟨_, hd2, _⟩
  · rw [hk] at hk2
    cases hk2
  · rw [hcalls] at htr
    rw [hloc] at hrun
    have hout : outcome (checkpointJVMImpl args env)
        = some (ExceptionClass.criuSystemCheckpointExceptionClass, env.criu_dump) := by
      rw [hrun, outcome_afterCloses]
    refine ⟨?_, ?_, ?_, ?_, hout, ?_⟩
    · rw [htr]
      simp [List.count_append, List.count_cons,
        List.count_eq_zero.mpr (not_mem_of_isSetup hS (e := Event.releaseExclusiveVMAccess) rfl),
        List.count_eq_zero.mpr (not_mem_of_isFree hF (e := Event.releaseExclusiveVMAccess) rfl),
        List.count_eq_zero.mpr (not_mem_of_isRaise hR (e := Event.releaseExclusiveVMAccess) rfl)]
    · rw [htr]
      simp
    · intro hw
      rw [htr]
      simp [hw]
    · rw [htr]
      simp [not_mem_of_isSetup hS, not_mem_of_isFree hF, not_mem_of_isRaise hR, Event.isSetup,
        Event.isFree, Event.isRaise, Event.isCriu]
    · intro h1 h2
      rw [thrown_eq, hout]
      simp [h1, h2]
  · exact absurd hd (not_lt.mpr hd2)

theorem dump_failure_witness :
    Event.criu_dump ∈ (checkpointJVMImpl sampleArgsWorkDir
      { sampleEnv with criu_dump := -52, closeWorkDirFD := -1, closeWorkDirFDErrno := 9 }).trace ∧
    outcome (checkpointJVMImpl sampleArgsWorkDir
      { sampleEnv with criu_dump := -52, closeWorkDirFD := -1, closeWorkDirFDErrno := 9 })
      = some (ExceptionClass.criuSystemCheckpointExceptionClass, -52) :=
  ⟨by decide,
    (dump_failure sampleArgsWorkDir
      { sampleEnv with criu_dump := -52, closeWorkDirFD := -1, closeWorkDirFDErrno := 9 }
      (by decide) (by decide)).2.2.2.2.1⟩

/-! ### Which descriptors the cleanup code closes -/

theorem resolveDirectory_cases (env : Env) (l : Locals) :
    ((resolveDirectory env l).target = none ∨
      (resolveDirectory env l).target = some Label.freeDir) ∧
    (resolveDirectory env l).locals.dirFD = l.dirFD ∧
    (resolveDirectory env l).locals.workDirFD = l.workDirFD ∧
    (∀ e ∈ (resolveDirectory env l).calls, e.isConversion = true) := by
  unfold resolveDirectory
  simp only
  split_ifs <;> simp [Event.isConversion]

theorem resolveLogFile_cases (args : Args) (env : Env) (l : Locals) :
    ((resolveLogFile args env l).target = none ∨
      (resolveLogFile args env l).target = some Label.freeLog) ∧
    (resolveLogFile args env l).locals.dirFD = l.dirFD ∧
    (resolveLogFile args env l).locals.workDirFD = l.workDirFD ∧
    (∀ e ∈ (resolveLogFile args env l).calls, e.isConversion = true) := by
  unfold resolveLogFile
  simp only
  split_ifs <;> simp [Event.isConversion]

theorem resolveWorkDir_cases (args : Args) (env : Env) (l : Locals) :
    ((resolveWorkDir args env l).target = none ∨
      (resolveWorkDir args env l).target = some Label.freeWorkDir) ∧
    (resolveWorkDir args env l).locals.dirFD = l.dirFD ∧
    (resolveWorkDir args env l).locals.workDirFD = l.workDirFD ∧
    (∀ e ∈ (resolveWorkDir args env l).calls, e.isConversion = true) := by
  unfold resolveWorkDir
  simp only
  split_ifs <;> simp [Event.isConversion]

theorem openDirectory_cases (env : Env) (l : Locals) :
    (((openDirectory env l).target = none ∧ 0 ≤ env.openDirectory) ∨
      (openDirectory env l).target = some Label.freeWorkDir) ∧
    (openDirectory env l).locals.dirFD = env.openDirectory ∧
    (openDirectory env l).locals.workDirFD = l.workDirFD ∧
    (openDirectory env l).calls = [Event.openDirectory] := by
  unfold openDirectory
  simp only
  split_ifs with h
  · simp
  · simp [not_lt.mp h]

theorem openWorkDir_cases (args : Args) (env : Env) (l : Locals) :
    (args.workDir = true ∧ (openWorkDir args env l).calls = [Event.openWorkDir] ∧
      (openWorkDir args env l).locals.workDirFD = env.openWorkDir ∧
      (openWorkDir args env l).locals.dirFD = l.dirFD ∧
      (((openWorkDir args env l).target = none ∧ 0 ≤ env.openWorkDir) ∨
        (openWorkDir args env l).target = some Label.closeDirFD)) ∨
    (args.workDir = false ∧ (openWorkDir args env l).calls = [] ∧
      (openWorkDir args env l).locals = l ∧ (openWorkDir args env l).target = none) := by
  unfold openWorkDir
  simp only
  split_ifs with h1 h2
  · simp [h1]
  · simp [h1, not_lt.mp h2]
  · simp [h1]

theorem configureCriu_cases (args : Args) (env : Env) (l : Locals) :
    ((configureCriu args env l).target = none ∨
      (configureCriu args env l).target = some Label.closeWorkDirFD) ∧
    (configureCriu args env l).locals.dirFD = l.dirFD ∧
    (configureCriu args env l).locals.workDirFD = l.workDirFD ∧
    Event.criu_init_opts ∈ (configureCriu args env l).calls ∧
    Event.openWorkDir ∉ (configureCriu args env l).calls := by
  have hn : Event.openWorkDir ∉ (configureCriu args env l).calls := by
    unfold configureCriu
    simp only
    split_ifs <;> simp
  by_cases hc : env.criu_init_opts = 0
  · exact ⟨by simp [configureCriu, hc], by simp [configureCriu, hc],
      by simp [configureCriu, hc], by simp [configureCriu, hc], hn⟩
  · exact ⟨by simp [configureCriu, Ne.symm hc], by simp [configureCriu, Ne.symm hc],
      by simp [configureCriu, Ne.symm hc], by simp [configureCriu, Ne.symm hc], hn⟩

theorem not_mem_of_isConversion {t : List Event} (h : ∀ e ∈ t, e.isConversion = true)
    {e : Event} (he : e.isConversion = false) : e ∉ t := by
  intro hm
  rw [h e hm] at he
  cases he

/-- How far lines 243-334 get: they end before any descriptor is held; or the
work directory does not open, with the image descriptor held; or
`criu_init_opts` is reached, with the image descriptor held and the work
descriptor held exactly when a work directory was requested. -/
theorem setup_cases (args : Args) (env : Env) :
    (((setup args env).target = some Label.freeDir ∨
        (setup args env).target = some Label.freeLog ∨
        (setup args env).target = some Label.freeWorkDir) ∧
      Event.criu_init_opts ∉ (setup args env).calls) ∨
    ((setup args env).target = some Label.closeDirFD ∧
      (setup args env).locals.dirFD = env.openDirectory ∧ 0 ≤ env.openDirectory ∧
      Event.openDirectory ∈ (setup args env).calls ∧
      Event.criu_init_opts ∉ (setup args env).calls) ∨
    (((setup args env).target = none ∨
        (setup args env).target = some Label.closeWorkDirFD) ∧
      (setup args env).locals.dirFD = env.openDirectory ∧ 0 ≤ env.openDirectory ∧
      Event.openDirectory ∈ (setup args env).calls ∧
      Event.criu_init_opts ∈ (setup args env).calls ∧
      (args.workDir = true →
        (setup args env).locals.workDirFD = env.openWorkDir ∧ 0 ≤ env.openWorkDir ∧
        Event.openWorkDir ∈ (setup args env).calls) ∧
      (args.workDir = false →
        (setup args env).locals.workDirFD = 0 ∧
        Event.openWorkDir ∉ (setup args env).calls)) := by
  obtain ⟨t1, d1, w1, c1⟩ := resolveDirectory_cases env {}
  obtain ⟨t2, d2, w2, c2⟩ := resolveLogFile_cases args env (resolveDirectory env {}).locals
  obtain ⟨t3, d3, w3, c3⟩ := resolveWorkDir_cases args env
    (resolveLogFile args env (resolveDirectory env {}).locals).locals
  obtain ⟨t4, d4, w4, c4⟩ := openDirectory_cases env
    (resolveWorkDir args env (resolveLogFile args env (resolveDirectory env {}).locals).locals).locals
  have t5 := openWorkDir_cases args env (openDirectory env
    (resolveWorkDir args env (resolveLogFile args env
      (resolveDirectory env {}).locals).locals).locals).locals
  obtain ⟨t6, d6, w6, c6, k6⟩ := configureCriu_cases args env (openWorkDir args env (openDirectory env
    (resolveWorkDir args env (resolveLogFile args env
      (resolveDirectory env {}).locals).locals).locals).locals).locals
  have n1 := fun (e : Event) (he : e.isConversion = false) =>
    not_mem_of_isConversion c1 he
  have n2 := fun (e : Event) (he : e.isConversion = false) =>
    not_mem_of_isConversion c2 he
  have n3 := fun (e : Event) (he : e.isConversion = false) =>
    not_mem_of_isConversion c3 he
  rcases t1 with t1 | t1
  swap
  · left
    simp [setup, Step.andThen, t1, n1, Event.isConversion]
  rcases t2 with t2 | t2
  swap
  · left
    simp [setup, Step.andThen, t1, t2, n1, n2, Event.isConversion]
  rcases t3 with t3 | t3
  swap
  · left
    simp [setup, Step.andThen, t1, t2, t3, n1, n2, n3, Event.isConversion]
  rcases t4 with ⟨t4, o4⟩ | t4
  swap
  · left
    simp [setup, Step.andThen, t1, t2, t3, t4, c4, n1, n2, n3, Event.isConversion]
  rcases t5 with ⟨hw, c5, w5, d5, ⟨t5, o5⟩ | t5⟩ | ⟨hw, c5, l5, t5⟩
  · right; right
    rcases t6 with t6 | t6 <;>
      simp [setup, Step.andThen, t1, t2, t3, t4, t5, t6, c4, c5, c6, d4, d5, d6, w5, w6, o4, o5,
        hw]
  · right; left
    simp [setup, Step.andThen, t1, t2, t3, t4, t5, c4, c5, d4, d5, o4, n1, n2, n3,
      Event.isConversion]
  · right; right
    have d6n := d6.trans ((congrArg Locals.dirFD l5).trans d4)
    have w6n := w6.trans ((congrArg Locals.workDirFD l5).trans
      (w4.trans (w3.trans (w2.trans w1))))
    rcases t6 with t6 | t6 <;>
      simp [setup, Step.andThen, t1, t2, t3, t4, t5, t6, c4, c5, c6, k6, d6n, w6n, o4, hw, n1,
        n2, n3, Event.isConversion]

theorem checkpoint_calls_mem (env : Env) (l : Locals) :
    ∀ e ∈ (checkpoint env l).calls,
      e = Event.acquireExclusiveVMAccess ∨ e.isGuarded = true := by
  rcases checkpoint_cases env l with ⟨_, h, _⟩ | ⟨_, _, h, _⟩ | ⟨_, _, h, _⟩ <;>
    rw [h] <;> simp [Event.isGuarded]

theorem not_mem_checkpoint_calls (env : Env) (l : Locals) {e : Event}
    (h1 : e ≠ Event.acquireExclusiveVMAccess) (h2 : e.isGuarded = false) :
    e ∉ (checkpoint env l).calls := by
  intro hm
  rcases checkpoint_calls_mem env l e hm with h | h
  · exact h1 h
  · rw [h2] at h
    cases h

/-- From the three `free` labels on, only buffers are released. -/
theorem cleanup_free_calls (env : Env) (t : Label) (l : Locals)
    (ht : t = Label.freeDir ∨ t = Label.freeLog ∨ t = Label.freeWorkDir) :
    ∀ e ∈ (cleanup env t l).2, e.isFree = true := by
  rcases ht with rfl | rfl | rfl
  · exact (free_calls l _ (Or.inr (Or.inr rfl))).1
  · exact (free_calls l _ (Or.inr (Or.inl rfl))).1
  · exact (free_calls l _ (Or.inl rfl)).1

/-- Every `close` in a run is a `close` of a descriptor the run opened, except
that the work-directory slot is also closed when no work directory was
requested: `close(dirFD)` is called only with the descriptor a successful
`open(directoryChars)` returned, and, when a work directory was requested,
`close(workDirFD)` only with the descriptor a successful `open(workDirChars)`
returned. -/
theorem close_only_after_open (args : Args) (env : Env) :
    (∀ fd, Event.closeDirFD fd ∈ (checkpointJVMImpl args env).trace →
      fd = env.openDirectory ∧ 0 ≤ env.openDirectory ∧
      Event.openDirectory ∈ (checkpointJVMImpl args env).trace) ∧
    (∀ fd, Event.closeWorkDirFD fd ∈ (checkpointJVMImpl args env).trace →
      args.workDir = true →
      fd = env.openWorkDir ∧ 0 ≤ env.openWorkDir ∧
      Event.openWorkDir ∈ (checkpointJVMImpl args env).trace) := by
  cases ha : env.isCheckpointAllowed with
  | false =>
    rw [run_not_allowed args env ha]
    simp
  | true =>
    have hS := (setup_isSetup args env).1
    have hR := throwException_isRaise env (checkpointJVMImpl args env).locals
    have hSn := fun (e : Event) (he : e.isSetup = false) => not_mem_of_isSetup hS he
    have hRn := fun (e : Event) (he : e.isRaise = false) => not_mem_of_isRaise hR he
    have hF := (free_calls (setup args env).locals _ (Or.inl rfl)).1
    have hFn := fun (e : Event) (he : e.isFree = false) => not_mem_of_isFree hF he
    rcases setup_cases args env with ⟨ht, _⟩ | ⟨ht, hd, ho, hm, _⟩ |
      ⟨ht | ht, hd, ho, hm, _, hw1, _⟩
    · have key : ∀ t, (setup args env).target = some t →
          (t = Label.freeDir ∨ t = Label.freeLog ∨ t = Label.freeWorkDir) →
          ∀ e ∈ (checkpointJVMImpl args env).trace,
            e.isCloseDir = false ∧ e.isCloseWorkDir = false := by
        intro t h1 h2 e he
        obtain ⟨htr, _⟩ := run_of_setup_some args env ha h1
        rw [htr] at he
        simp only [List.append_assoc, List.mem_append] at he
        rcases he with h | h | h
        · exact ⟨isSetup_isCloseDir (hS e h), isSetup_isCloseWorkDir (hS e h)⟩
        · have := cleanup_free_calls env t _ h2 e h
          exact ⟨isFree_isCloseDir this, isFree_isCloseWorkDir this⟩
        · exact ⟨isRaise_isCloseDir (hR e h), isRaise_isCloseWorkDir (hR e h)⟩
      have key2 : ∀ e ∈ (checkpointJVMImpl args env).trace,
          e.isCloseDir = false ∧ e.isCloseWorkDir = false := by
        rcases ht with h | h | h
        · exact key _ h (Or.inl rfl)
        · exact key _ h (Or.inr (Or.inl rfl))
        · exact key _ h (Or.inr (Or.inr rfl))
      refine ⟨fun fd hfd => ?_, fun fd hfd => ?_⟩
      · have := (key2 _ hfd).1
        simp [Event.isCloseDir] at this
      · have := (key2 _ hfd).2
        simp [Event.isCloseWorkDir] at this
    · obtain ⟨htr, _⟩ := run_of_setup_some args env ha ht
      rw [htr]
      simp [cleanup, atCloseDirFD_calls, hSn, hRn, hFn, Event.isSetup, Event.isRaise,
        Event.isFree, Event.isCriu, hd, ho, hm]
    · obtain ⟨htr, _⟩ := run_of_setup_none args env ha ht
      rw [htr]
      have hGn := fun (e : Event) h1 h2 =>
        not_mem_checkpoint_calls env (setup args env).locals (e := e) h1 h2
      simp [hSn, hRn, hFn, hGn, Event.isSetup, Event.isRaise, Event.isFree, Event.isCriu,
        Event.isGuarded, hd, ho, hm]
      intro hw
      exact hw1 hw
    · obtain ⟨htr, _⟩ := run_of_setup_some args env ha ht
      rw [htr]
      simp [cleanup, atCloseWorkDirFD_calls, hSn, hRn, hFn, Event.isSetup, Event.isRaise,
        Event.isFree, Event.isCriu, hd, ho, hm]
      intro hw
      exact hw1 hw

theorem criu_init_opts_not_mem_cleanup (env : Env) (t : Label) (l : Locals) :
    Event.criu_init_opts ∉ (cleanup env t l).2 := by
  have h1 : Event.criu_init_opts ∉ (atFreeWorkDir l).2 :=
    not_mem_of_isFree (free_calls l _ (Or.inl rfl)).1 rfl
  have h2 : Event.criu_init_opts ∉ (atFreeLog l).2 :=
    not_mem_of_isFree (free_calls l _ (Or.inr (Or.inl rfl))).1 rfl
  have h3 : Event.criu_init_opts ∉ (atFreeDir l).2 :=
    not_mem_of_isFree (free_calls l _ (Or.inr (Or.inr rfl))).1 rfl
  cases t <;>
    simp [cleanup, atReleaseExclusive_calls, atCloseWorkDirFD_calls, atCloseDirFD_calls, h1,
      h2, h3]

/-- Every run without work directory that reaches `criu_init_opts` calls
`close(workDirFD)` with `workDirFD` equal to 0, although it never opened a work
directory. -/
theorem close_of_work_slot_without_workDir (args : Args) (env : Env)
    (hw : args.workDir = false)
    (hinit : Event.criu_init_opts ∈ (checkpointJVMImpl args env).trace) :
    Event.closeWorkDirFD 0 ∈ (checkpointJVMImpl args env).trace ∧
    Event.openWorkDir ∉ (checkpointJVMImpl args env).trace := by
  cases ha : env.isCheckpointAllowed with
  | false =>
    rw [run_not_allowed args env ha] at hinit
    cases hinit
  | true =>
    have hS := (setup_isSetup args env).1
    have hR := throwException_isRaise env (checkpointJVMImpl args env).locals
    have hRn := fun (e : Event) (he : e.isRaise = false) => not_mem_of_isRaise hR he
    have hF := (free_calls (setup args env).locals _ (Or.inl rfl)).1
    have hFn := fun (e : Event) (he : e.isFree = false) => not_mem_of_isFree hF he
    have hno : ∀ t, (setup args env).target = some t →
        Event.criu_init_opts ∉ (setup args env).calls → False := by
      intro t ht hn
      obtain ⟨htr, _⟩ := run_of_setup_some args env ha ht
      rw [htr] at hinit
      simp [hn, criu_init_opts_not_mem_cleanup, hRn, Event.isRaise] at hinit
    rcases setup_cases args env with ⟨ht | ht | ht, hn⟩ | ⟨ht, _, _, _, hn⟩ |
      ⟨ht | ht, _, _, _, _, _, hw2⟩
    · exact (hno _ ht hn).elim
    · exact (hno _ ht hn).elim
    · exact (hno _ ht hn).elim
    · exact (hno _ ht hn).elim
    · obtain ⟨h0, hn⟩ := hw2 hw
      obtain ⟨htr, _⟩ := run_of_setup_none args env ha ht
      rw [htr, h0]
      have hGn := not_mem_checkpoint_calls env (setup args env).locals
        (e := Event.openWorkDir) (by simp) rfl
      simp [hn, hGn, hRn, hFn, Event.isRaise, Event.isFree]
    · obtain ⟨h0, hn⟩ := hw2 hw
      obtain ⟨htr, _⟩ := run_of_setup_some args env ha ht
      rw [htr]
      simp [cleanup, atCloseWorkDirFD_calls, h0, hn, hRn, hFn, Event.isRaise, Event.isFree]

end CRIUSupport
